import Mathlib

/-!
# Formal verification of the `log_analyzer` pipeline

A shallow embedding of the core pipeline of the `ad-shekhar/log_analyzer`
repository (ingestion, parsing, normalization, clustering, aggregation),
together with theorems settling the frozen specification claims.

Python strings are modelled as `List Char` (ASCII model for the regex
character classes `\w`, `\d`, `\s`, which is what all verified inputs use).
External library calls (`json.loads`, `sklearn` vectorization/k-means,
`gzip` decompression) are modelled as explicit function parameters: the
repository's own logic around them is embedded faithfully.
-/

namespace LogAnalyzer

/-- Python strings are modelled as lists of characters. -/
abbrev PyStr := List Char

/-- ASCII model of Python's `\s` class and `str.strip` whitespace. -/
def pyIsSpace (c : Char) : Bool :=
  c = ' ' || c = '\t' || c = '\n' || c = '\r' || c = '\x0b' || c = '\x0c'

/-- ASCII decimal digit, the regex `\d` class. -/
def isDigitC (c : Char) : Bool := '0' ≤ c && c ≤ '9'

/-- ASCII letter. -/
def isAlphaC (c : Char) : Bool := ('a' ≤ c && c ≤ 'z') || ('A' ≤ c && c ≤ 'Z')

/-- ASCII letter or digit. -/
def isAlnumC (c : Char) : Bool := isAlphaC c || isDigitC c

/-- The regex `\w` class (ASCII model): letters, digits, underscore. -/
def isWordC (c : Char) : Bool := isAlnumC c || c = '_'

/-- The regex `[0-9a-fA-F]` class. -/
def isHexC (c : Char) : Bool :=
  isDigitC c || ('a' ≤ c && c ≤ 'f') || ('A' ≤ c && c ≤ 'F')

/-- Whether an optional character (string edge = `none`) is a `\w` character;
used for word-boundary (`\b`) tests. -/
def optWord : Option Char → Bool
  | some c => isWordC c
  | none => false

/-- Consume exactly `n` characters satisfying `p`, returning the remainder
(regex `{n}` over a character class). -/
def takeClass (p : Char → Bool) : Nat → PyStr → Option PyStr
  | 0, s => some s
  | _ + 1, [] => none
  | n + 1, c :: s => if p c then takeClass p n s else none

/-- Length of the maximal prefix run of characters satisfying `p`
(greedy `+`/`*` over a character class). -/
def runLen (p : Char → Bool) : PyStr → Nat
  | [] => 0
  | c :: s => if p c then runLen p s + 1 else 0

/-- Consume one expected character. -/
def expectC (c : Char) : PyStr → Option PyStr
  | d :: s => if d = c then some s else none
  | [] => none

/-- Consume an expected literal character list. -/
def litList : PyStr → PyStr → Option PyStr
  | [], s => some s
  | c :: cs, d :: s => if d = c then litList cs s else none
  | _ :: _, [] => none

/-- Consume an expected literal string. -/
def litStr (l : String) (s : PyStr) : Option PyStr := litList l.data s

theorem litList_length {l s r : PyStr} (h : litList l s = some r) :
    r.length + l.length = s.length := by
  induction l generalizing s with
  | nil => simp [litList] at h; simp [h]
  | cons c cs ih =>
    cases s with
    | nil => simp [litList] at h
    | cons d s' =>
      simp only [litList] at h
      split at h
      · have := ih h; simp [List.length_cons]; omega
      · exact absurd h (by simp)

/-!
## The generic `re.sub` driver

A matcher receives the reversed prefix of already-scanned characters
(for lookbehind and word-boundary tests) and the current suffix, and
returns the match length (≥ 1; none of the source's patterns can match
the empty string) together with the replacement text.  `pySub` is
Python's `re.sub`: scan left to right over the original string, replace
each non-overlapping leftmost match.
-/

abbrev Matcher := PyStr → PyStr → Option (Nat × PyStr)

/-- The scan loop of `re.sub`, fuelled for structural recursion: each step
consumes at least one character, so fuel `s.length` is always sufficient
(the fuel-0 case is unreachable). -/
def pySubFuel (m : Matcher) : Nat → PyStr → PyStr → PyStr
  | 0, _, _ => []
  | _ + 1, _, [] => []
  | fuel + 1, before, c :: s' =>
    match m before (c :: s') with
    | some (n + 1, repl) =>
        repl ++ pySubFuel m fuel (((c :: s').take (n + 1)).reverse ++ before) (s'.drop n)
    | _ => c :: pySubFuel m fuel (c :: before) s'

def pySub (m : Matcher) (s : PyStr) : PyStr := pySubFuel m s.length [] s

/-- Wrap a pure recognizer into a matcher with a fixed replacement string. -/
def fixedM (f : PyStr → PyStr → Option Nat) (repl : String) : Matcher :=
  fun before s => (f before s).map (fun n => (n, repl.data))

/-!
## `normalization.py` — `VARIABLE_PATTERNS`

Each regex from the ordered substitution list is embedded as a recognizer
at a fixed position; the driver supplies the scan over positions.
Greedy/backtracking behaviour has been resolved per pattern (documented
inline where backtracking cannot change the outcome).
-/

/-- `[0-9a-fA-F]{8}-[0-9a-fA-F]{4}-[0-9a-fA-F]{4}-[0-9a-fA-F]{4}-[0-9a-fA-F]{12}` -/
def matchUUID (_ : PyStr) (s : PyStr) : Option Nat := do
  let r ← takeClass isHexC 8 s
  let r ← expectC '-' r
  let r ← takeClass isHexC 4 r
  let r ← expectC '-' r
  let r ← takeClass isHexC 4 r
  let r ← expectC '-' r
  let r ← takeClass isHexC 4 r
  let r ← expectC '-' r
  let r ← takeClass isHexC 12 r
  return s.length - r.length

/-- `[0-9a-fA-F]{24}` (no word boundaries in the source pattern). -/
def matchOBJECTID (_ : PyStr) (s : PyStr) : Option Nat := do
  let r ← takeClass isHexC 24 s
  return s.length - r.length

/-- `\b[0-9a-fA-F]{k}\b` for the SHA (k=40) and SHA256 (k=64) patterns.
The first/last matched characters are hex hence `\w`, so the boundaries
reduce to the neighbours being non-word. -/
def matchFixedHexWb (k : Nat) (before s : PyStr) : Option Nat := do
  guard (!optWord before.head?)
  let r ← takeClass isHexC k s
  guard (!optWord r.head?)
  return s.length - r.length

/-- `\d{1,3}` followed by a literal `'.'`; since digits and `'.'` are
disjoint, greedy matching with backtracking reduces to: the maximal digit
run has length 1–3 and is followed by `'.'`. -/
def digitsDot (s : PyStr) : Option PyStr :=
  let r := runLen isDigitC s
  if 1 ≤ r ∧ r ≤ 3 then expectC '.' (s.drop r) else none

/-- `\b(?:\d{1,3}\.){3}\d{1,3}\b` -/
def matchIPv4 (before s : PyStr) : Option Nat := do
  guard (!optWord before.head?)
  let r ← digitsDot s
  let r ← digitsDot r
  let r ← digitsDot r
  let n := runLen isDigitC r
  guard (1 ≤ n ∧ n ≤ 3)
  guard (!optWord (r.drop n).head?)
  return s.length - (r.length - n)

/-- `[0-9a-fA-F]{1,4}` followed by `':'` (disjoint classes, as above). -/
def hexColon (s : PyStr) : Option PyStr :=
  let r := runLen isHexC s
  if 1 ≤ r ∧ r ≤ 4 then expectC ':' (s.drop r) else none

/-- `\b(?:[0-9a-fA-F]{1,4}:){7}[0-9a-fA-F]{1,4}\b` -/
def matchIPv6 (before s : PyStr) : Option Nat := do
  guard (!optWord before.head?)
  let r ← hexColon s
  let r ← hexColon r
  let r ← hexColon r
  let r ← hexColon r
  let r ← hexColon r
  let r ← hexColon r
  let r ← hexColon r
  let n := runLen isHexC r
  guard (1 ≤ n ∧ n ≤ 4)
  guard (!optWord (r.drop n).head?)
  return s.length - (r.length - n)

/-- Characters allowed in the URL tail: `[^\s<>"']`. -/
def urlChar (c : Char) : Bool :=
  !(pyIsSpace c || c = '<' || c = '>' || c = '"' || c = '\'')

/-- `https?://[^\s<>"']+` — taking the optional `'s'` greedily is exact,
since `'s' ≠ ':'` means the two alternatives can never both continue. -/
def matchURL (_ : PyStr) (s : PyStr) : Option Nat := do
  let r ← litStr "http" s
  let r := match expectC 's' r with | some r' => r' | none => r
  let r ← litStr "://" r
  let n := runLen urlChar r
  guard (1 ≤ n)
  return s.length - (r.length - n)

/-- `[\w\-./]` -/
def pathChar (c : Char) : Bool := isWordC c || c = '-' || c = '.' || c = '/'

/-- `/[\w\-./]+(?:\.\w+)?` — after the greedy run the optional suffix can
only match the empty string (a following `'.'` would have been consumed). -/
def matchPATH (_ : PyStr) (s : PyStr) : Option Nat := do
  let r ← expectC '/' s
  let n := runLen pathChar r
  guard (1 ≤ n)
  return 1 + n

/-- `[\w.+-]` -/
def emailLocalChar (c : Char) : Bool := isWordC c || c = '.' || c = '+' || c = '-'

/-- `[\w.-]` -/
def emailDomChar (c : Char) : Bool := isWordC c || c = '.' || c = '-'

/-- Backtracking search for the split point of `[\w.-]+\.\w+`: the largest
`k` such that the character at index `k` is `'.'` and a `\w` character
follows, exactly Python's greedy-then-backtrack order. -/
def emailSplit (r : PyStr) : Nat → Option Nat
  | 0 => none
  | k + 1 =>
    if r.get? (k + 1) = some '.' ∧ optWord (r.drop (k + 2)).head? then some (k + 1)
    else emailSplit r k

/-- `\b[\w.+-]+@[\w.-]+\.\w+\b` — the trailing `\b` always holds at the end
of a maximal `\w` run, and the leading `\b` compares the previous character
with the (possibly non-word) first matched character. -/
def matchEMAIL (before s : PyStr) : Option Nat := do
  let c0 ← s.head?
  guard (emailLocalChar c0)
  guard (optWord before.head? != isWordC c0)
  let r1 := runLen emailLocalChar s
  let r ← expectC '@' (s.drop r1)
  let bigR := runLen emailDomChar r
  let k ← emailSplit r bigR
  let w := runLen isWordC (r.drop (k + 1))
  guard (1 ≤ w)
  return r1 + 1 + k + 1 + w

/-- Optional `(?:\.\d+)?`-style fraction with a given separator test. -/
def optFrac (sep : Char → Bool) (r : PyStr) : PyStr :=
  match r with
  | c :: rest =>
    if sep c then
      let n := runLen isDigitC rest
      if 1 ≤ n then rest.drop n else r
    else r
  | [] => r

/-- Optional `(?:Z|[+-]\d{2}:?\d{2})?` timezone. When the `':'` branch of
`:?` fails, the no-colon branch needs a digit where the `':'` stands, so the
whole alternative fails and the optional group matches empty. -/
def optTz (r : PyStr) : PyStr :=
  match r with
  | 'Z' :: rest => rest
  | c :: rest =>
    if c = '+' ∨ c = '-' then
      match takeClass isDigitC 2 rest with
      | some r2 =>
        match r2 with
        | ':' :: r3 =>
          match takeClass isDigitC 2 r3 with
          | some r4 => r4
          | none => r
        | _ =>
          match takeClass isDigitC 2 r2 with
          | some r4 => r4
          | none => r
      | none => r
    else r
  | [] => r

/-- `\d{4}-\d{2}-\d{2}T\d{2}:\d{2}:\d{2}(?:\.\d+)?(?:Z|[+-]\d{2}:?\d{2})?` -/
def matchISOts (_ : PyStr) (s : PyStr) : Option Nat := do
  let r ← takeClass isDigitC 4 s
  let r ← expectC '-' r
  let r ← takeClass isDigitC 2 r
  let r ← expectC '-' r
  let r ← takeClass isDigitC 2 r
  let r ← expectC 'T' r
  let r ← takeClass isDigitC 2 r
  let r ← expectC ':' r
  let r ← takeClass isDigitC 2 r
  let r ← expectC ':' r
  let r ← takeClass isDigitC 2 r
  let r := optFrac (· = '.') r
  let r := optTz r
  return s.length - r.length

/-- `\d{4}-\d{2}-\d{2}\s+\d{2}:\d{2}:\d{2}(?:[,\.]\d+)?` -/
def matchSpaceTs (_ : PyStr) (s : PyStr) : Option Nat := do
  let r ← takeClass isDigitC 4 s
  let r ← expectC '-' r
  let r ← takeClass isDigitC 2 r
  let r ← expectC '-' r
  let r ← takeClass isDigitC 2 r
  let w := runLen pyIsSpace r
  guard (1 ≤ w)
  let r := r.drop w
  let r ← takeClass isDigitC 2 r
  let r ← expectC ':' r
  let r ← takeClass isDigitC 2 r
  let r ← expectC ':' r
  let r ← takeClass isDigitC 2 r
  let r := optFrac (fun c => c = ',' || c = '.') r
  return s.length - r.length

/-- `\d{2}/\w{3}/\d{4}:\d{2}:\d{2}:\d{2}` -/
def matchSlashTs (_ : PyStr) (s : PyStr) : Option Nat := do
  let r ← takeClass isDigitC 2 s
  let r ← expectC '/' r
  let r ← takeClass isWordC 3 r
  let r ← expectC '/' r
  let r ← takeClass isDigitC 4 r
  let r ← expectC ':' r
  let r ← takeClass isDigitC 2 r
  let r ← expectC ':' r
  let r ← takeClass isDigitC 2 r
  let r ← expectC ':' r
  let r ← takeClass isDigitC 2 r
  return s.length - r.length

/-- The unit alternation `ms|s|m|h|ns|µs`, tried left to right. -/
def matchUnit : PyStr → Option Nat
  | 'm' :: 's' :: _ => some 2
  | 's' :: _ => some 1
  | 'm' :: _ => some 1
  | 'h' :: _ => some 1
  | 'n' :: 's' :: _ => some 2
  | 'µ' :: 's' :: _ => some 2
  | _ => none

/-- `\d+(?:\.\d+)?(?:ms|s|m|h|ns|µs)` — shortening any greedy digit run
leaves a digit where a unit letter or `'.'` is required, so backtracking
inside the runs cannot succeed; if the fraction was taken and no unit
follows, the unit also fails at the `'.'`, so the whole match fails. -/
def matchDURATION (_ : PyStr) (s : PyStr) : Option Nat := do
  let d := runLen isDigitC s
  guard (1 ≤ d)
  match s.drop d with
  | '.' :: p1 =>
    let f := runLen isDigitC p1
    if 1 ≤ f then do
      let u ← matchUnit (p1.drop f)
      return d + 1 + f + u
    else none
  | p => do
    let u ← matchUnit p
    return d + u

/-- `\b0x[0-9a-fA-F]+\b` -/
def matchHEX (before s : PyStr) : Option Nat := do
  guard (!optWord before.head?)
  let r ← expectC '0' s
  let r ← expectC 'x' r
  let n := runLen isHexC r
  guard (1 ≤ n)
  guard (!optWord (r.drop n).head?)
  return 2 + n

/-- `\b\d{6,}\b` -/
def matchID (before s : PyStr) : Option Nat := do
  guard (!optWord before.head?)
  let n := runLen isDigitC s
  guard (6 ≤ n)
  guard (!optWord (s.drop n).head?)
  return n

/-- `(?<=port\s)\d+` — the reversed prefix must read whitespace, `'t'`,
`'r'`, `'o'`, `'p'`. -/
def matchPORT (before s : PyStr) : Option Nat :=
  match before with
  | w :: 't' :: 'r' :: 'o' :: 'p' :: _ =>
    if pyIsSpace w then
      let n := runLen isDigitC s
      if 1 ≤ n then some n else none
    else none
  | _ => none

/-- `(?<=:\s)\d+(?=\s|$|,)` -/
def matchNUMcolon (before s : PyStr) : Option Nat :=
  match before with
  | w :: ':' :: _ =>
    if pyIsSpace w then
      let n := runLen isDigitC s
      if 1 ≤ n then
        match (s.drop n).head? with
        | none => some n
        | some c => if pyIsSpace c || c = ',' then some n else none
      else none
    else none
  | _ => none

/-- `(?<==)\d+` -/
def matchNUMeq (before s : PyStr) : Option Nat :=
  match before with
  | '=' :: _ =>
    let n := runLen isDigitC s
    if 1 ≤ n then some n else none
  | _ => none

/-- `\b[A-Za-z0-9]{20,}\b` — the class excludes `'_'`, so the run must be
maximal and its neighbours non-word (in particular not `'_'`). -/
def matchREQUESTID (before s : PyStr) : Option Nat := do
  guard (!optWord before.head?)
  let n := runLen isAlnumC s
  guard (20 ≤ n)
  guard (!optWord (s.drop n).head?)
  return n

/-- The ordered substitution list `VARIABLE_PATTERNS` from
`normalization.py` (order matters: more specific first). -/
def VARIABLE_PATTERNS : List Matcher :=
  [ fixedM matchUUID "<UUID>"
  , fixedM matchOBJECTID "<OBJECT_ID>"
  , fixedM (matchFixedHexWb 40) "<SHA>"
  , fixedM (matchFixedHexWb 64) "<SHA256>"
  , fixedM matchIPv4 "<IP>"
  , fixedM matchIPv6 "<IPv6>"
  , fixedM matchURL "<URL>"
  , fixedM matchPATH "<PATH>"
  , fixedM matchEMAIL "<EMAIL>"
  , fixedM matchISOts "<TIMESTAMP>"
  , fixedM matchSpaceTs "<TIMESTAMP>"
  , fixedM matchSlashTs "<TIMESTAMP>"
  , fixedM matchDURATION "<DURATION>"
  , fixedM matchHEX "<HEX>"
  , fixedM matchID "<ID>"
  , fixedM matchPORT "<PORT>"
  , fixedM matchNUMcolon "<NUM>"
  , fixedM matchNUMeq "<NUM>"
  , fixedM matchREQUESTID "<REQUEST_ID>" ]

/-- Greedy `(\s*\1)+` repetitions for the placeholder-collapse pattern:
returns the repetition count and consumed length.  The token starts with
`'<'`, disjoint from whitespace, so greedy `\s*` is exact.  Fuelled for
structural recursion: each repetition consumes at least the (non-empty)
token, so fuel `s.length` is sufficient. -/
def collapseRepsFuel (t0 : Char) (ttail : PyStr) : Nat → PyStr → Nat × Nat
  | 0, _ => (0, 0)
  | fuel + 1, s =>
    let w := runLen pyIsSpace s
    match litList (t0 :: ttail) (s.drop w) with
    | some rest =>
      let p := collapseRepsFuel t0 ttail fuel rest
      (p.1 + 1, w + (ttail.length + 1) + p.2)
    | none => (0, 0)

def collapseReps (t0 : Char) (ttail : PyStr) (s : PyStr) : Nat × Nat :=
  collapseRepsFuel t0 ttail s.length s

/-- `(<\w+>)(\s*\1)+` with replacement `\1`: collapse consecutive repeats
of an identical placeholder. -/
def matchCollapse (_ : PyStr) (s : PyStr) : Option (Nat × PyStr) :=
  match s with
  | '<' :: r =>
    let w := runLen isWordC r
    if 1 ≤ w then
      match (r.drop w) with
      | '>' :: rest =>
        let tok : PyStr := '<' :: (r.take w ++ ['>'])
        let p := collapseReps '<' (r.take w ++ ['>']) rest
        if 1 ≤ p.1 then some (tok.length + p.2, tok) else none
      | _ => none
    else none
  | _ => none

/-- `re.sub(r'\s+', ' ', s)` (fuelled, fuel `s.length` sufficient):
collapse whitespace runs to a single space. -/
def collapseWsFuel : Nat → PyStr → PyStr
  | 0, _ => []
  | _ + 1, [] => []
  | fuel + 1, c :: s =>
    if pyIsSpace c then ' ' :: collapseWsFuel fuel (s.dropWhile pyIsSpace)
    else c :: collapseWsFuel fuel s

def collapseWs (s : PyStr) : PyStr := collapseWsFuel s.length s

/-- Python `str.strip()`. -/
def stripPy (s : PyStr) : PyStr :=
  ((s.dropWhile pyIsSpace).reverse.dropWhile pyIsSpace).reverse

/-- `LogNormalizer.normalize_message`: apply the ordered variable
patterns, collapse repeated identical placeholders, collapse whitespace
and strip. -/
def normalize_message (message : PyStr) : PyStr :=
  let normalized := VARIABLE_PATTERNS.foldl (fun acc m => pySub m acc) message
  let collapsed := pySub matchCollapse normalized
  stripPy (collapseWs collapsed)

/-!
## `models.py` — the data model
-/

/-- ASCII `str.upper`. -/
def pyUpperChar (c : Char) : Char :=
  if 'a' ≤ c ∧ c ≤ 'z' then Char.ofNat (c.toNat - 32) else c

def pyUpper (s : PyStr) : PyStr := s.map pyUpperChar

/-- ASCII `str.lower`. -/
def pyLowerChar (c : Char) : Char :=
  if 'A' ≤ c ∧ c ≤ 'Z' then Char.ofNat (c.toNat + 32) else c

def pyLower (s : PyStr) : PyStr := s.map pyLowerChar

/-- `models.LogLevel` (an `Enum` with the integer values shown). -/
inductive LogLevel
  | TRACE | DEBUG | INFO | WARN | ERROR | FATAL | UNKNOWN
deriving DecidableEq, Repr

/-- The `Enum` member values (`UNKNOWN = -1`). -/
def LogLevel.value : LogLevel → Int
  | .TRACE => 0
  | .DEBUG => 1
  | .INFO => 2
  | .WARN => 3
  | .ERROR => 4
  | .FATAL => 5
  | .UNKNOWN => -1

/-- `LogLevel.from_string`: case-insensitive synonym table;
empty string and unknown names map to `UNKNOWN`. -/
def LogLevel.from_string (s : PyStr) : LogLevel :=
  if s = [] then .UNKNOWN else
  let n := pyUpper (stripPy s)
  if n = "TRACE".data then .TRACE
  else if n = "DEBUG".data then .DEBUG
  else if n = "INFO".data then .INFO
  else if n = "INFORMATION".data then .INFO
  else if n = "WARN".data then .WARN
  else if n = "WARNING".data then .WARN
  else if n = "ERROR".data then .ERROR
  else if n = "ERR".data then .ERROR
  else if n = "FATAL".data then .FATAL
  else if n = "CRITICAL".data then .FATAL
  else if n = "CRIT".data then .FATAL
  else if n = "SEVERE".data then .FATAL
  else if n = "PANIC".data then .FATAL
  else .UNKNOWN

/-- `models.ParsedLogEntry`. -/
structure ParsedLogEntry where
  raw_line : PyStr
  line_number : Nat
  level : LogLevel := .UNKNOWN
  message : PyStr := []
  timestamp : Option PyStr := none
  logger : Option PyStr := none
  exception : Option PyStr := none
  is_multiline : Bool := false
deriving DecidableEq, Repr

/-- Python truthiness of an optional string (`None` and `""` are falsy). -/
def pyTruthyOpt : Option PyStr → Bool
  | some s => !s.isEmpty
  | none => false

/-- `ParsedLogEntry.is_error`. -/
def ParsedLogEntry.is_error (e : ParsedLogEntry) : Bool :=
  e.level == .ERROR || e.level == .FATAL

/-- `ParsedLogEntry.has_exception` (`bool(self.exception)`). -/
def ParsedLogEntry.has_exception (e : ParsedLogEntry) : Bool :=
  pyTruthyOpt e.exception

/-- `models.ErrorTemplate`. -/
structure ErrorTemplate where
  template : PyStr
  original_messages : List PyStr := []
  count : Nat := 0
  first_occurrence_line : Nat := 0
deriving DecidableEq, Repr

/-- `ErrorTemplate.add_occurrence`: increment the count, keep up to 3
example messages, record the first-occurrence line if unset. -/
def ErrorTemplate.add_occurrence (t : ErrorTemplate) (message : PyStr)
    (line_number : Nat) : ErrorTemplate :=
  let t := { t with count := t.count + 1 }
  let t :=
    if t.original_messages.length < 3 then
      { t with original_messages := t.original_messages ++ [message] }
    else t
  if t.first_occurrence_line = 0 then
    { t with first_occurrence_line := line_number }
  else t

/-- `models.ErrorCluster`. -/
structure ErrorCluster where
  cluster_id : Nat
  templates : List ErrorTemplate := []
  total_count : Nat := 0
  keywords : List PyStr := []
  representative_sample : PyStr := []
deriving DecidableEq, Repr

/-!
## `normalization.py` — filtering and template de-duplication
-/

/-- `ERROR_KEYWORDS` (a Python `set`; only membership is ever used, so
iteration order is irrelevant and a list model is faithful). -/
def ERROR_KEYWORDS : List PyStr :=
  [ "error".data, "exception".data, "fail".data, "fatal".data, "panic".data
  , "crash".data, "traceback".data, "timeout".data, "refused".data
  , "denied".data, "unauthorized".data, "forbidden".data, "not found".data
  , "null".data, "undefined".data, "invalid".data, "cannot".data
  , "unable".data, "could not".data, "failed to".data ]

/-- `LogNormalizer.is_high_signal`, with the constructor's `min_level`. -/
def is_high_signal (min_level : LogLevel) (entry : ParsedLogEntry) : Bool :=
  if entry.level == .ERROR || entry.level == .FATAL then true
  else if entry.has_exception then true
  else if ERROR_KEYWORDS.any (fun kw => decide (kw <:+: pyLower entry.message)) then true
  else if entry.level == .WARN && decide (min_level.value ≤ LogLevel.WARN.value) then true
  else false

/-- One dict step of `process_entries`: create the bucket on first
occurrence (appended at the end, Python dicts preserve insertion order)
and call `add_occurrence` on it. -/
def processOne (key message : PyStr) (ln : Nat) :
    List (PyStr × ErrorTemplate) → List (PyStr × ErrorTemplate)
  | [] => [(key, (ErrorTemplate.mk key [] 0 ln).add_occurrence message ln)]
  | p :: rest =>
    if p.1 = key then (p.1, p.2.add_occurrence message ln) :: rest
    else p :: processOne key message ln rest

/-- The loop of `LogNormalizer.process_entries`, with the template dict
threaded through. -/
def processEntriesFrom (min_level : LogLevel) (m : List (PyStr × ErrorTemplate)) :
    List ParsedLogEntry → List ParsedLogEntry × List (PyStr × ErrorTemplate)
  | [] => ([], m)
  | e :: rest =>
    if is_high_signal min_level e then
      let m' := processOne (normalize_message e.message) e.message e.line_number m
      let p := processEntriesFrom min_level m' rest
      (e :: p.1, p.2)
    else processEntriesFrom min_level m rest

/-- `LogNormalizer.process_entries`: filter to high-signal entries and
build the normalized-template dict (reset to empty at the start). -/
def process_entries (min_level : LogLevel) (entries : List ParsedLogEntry) :
    List ParsedLogEntry × List (PyStr × ErrorTemplate) :=
  processEntriesFrom min_level [] entries

/-- Sum of `count` over all templates of the dict. -/
def sumCounts (m : List (PyStr × ErrorTemplate)) : Nat :=
  (m.map (fun p => p.2.count)).sum

theorem add_occurrence_count (t : ErrorTemplate) (msg : PyStr) (ln : Nat) :
    (t.add_occurrence msg ln).count = t.count + 1 := by
  simp only [ErrorTemplate.add_occurrence]
  split <;> split <;> rfl

theorem processOne_sumCounts (key msg : PyStr) (ln : Nat)
    (m : List (PyStr × ErrorTemplate)) :
    sumCounts (processOne key msg ln m) = sumCounts m + 1 := by
  induction m with
  | nil => simp [processOne, sumCounts, add_occurrence_count]
  | cons p rest ih =>
    simp only [processOne]
    split
    · simp [sumCounts, add_occurrence_count]; omega
    · simp [sumCounts] at ih ⊢; omega

theorem processEntriesFrom_conservation (min_level : LogLevel)
    (entries : List ParsedLogEntry) (m : List (PyStr × ErrorTemplate)) :
    sumCounts (processEntriesFrom min_level m entries).2 =
      sumCounts m + (processEntriesFrom min_level m entries).1.length := by
  induction entries generalizing m with
  | nil => simp [processEntriesFrom]
  | cons e rest ih =>
    simp only [processEntriesFrom]
    split
    · simp only [List.length_cons]
      rw [ih]
      rw [processOne_sumCounts]
      omega
    · exact ih m

/-- C3: template occurrence counting is conservation-exact — for every
configured minimum level and every finite entry sequence, the sum of
`count` over all templates returned by `process_entries` equals the
number of returned high-signal entries. -/
theorem process_entries_count_conservation (min_level : LogLevel)
    (entries : List ParsedLogEntry) :
    sumCounts (process_entries min_level entries).2 =
      (process_entries min_level entries).1.length := by
  have h := processEntriesFrom_conservation min_level entries []
  simpa [process_entries, sumCounts] using h

/-!
## `parsing.py` — regexes

The module-level patterns of `parsing.py`, embedded like the
normalization patterns.  The exception/continuation patterns are only
ever used as booleans (`if pattern.search(line)` / `pattern.match(line)`),
so they are embedded as recognizers.
-/

/-- `\d{4}-\d{2}-\d{2}\s+\d{2}:\d{2}:\d{2}[,\.]\d{3}` (the millisecond
part is mandatory here, unlike the normalization timestamp pattern). -/
def matchMsTs (s : PyStr) : Option Nat := do
  let r ← takeClass isDigitC 4 s
  let r ← expectC '-' r
  let r ← takeClass isDigitC 2 r
  let r ← expectC '-' r
  let r ← takeClass isDigitC 2 r
  let w := runLen pyIsSpace r
  guard (1 ≤ w)
  let r := r.drop w
  let r ← takeClass isDigitC 2 r
  let r ← expectC ':' r
  let r ← takeClass isDigitC 2 r
  let r ← expectC ':' r
  let r ← takeClass isDigitC 2 r
  let r ← (match r with
           | c :: rest => if c = ',' ∨ c = '.' then some rest else none
           | [] => none)
  let r ← takeClass isDigitC 3 r
  return s.length - r.length

/-- `\d{4}/\d{2}/\d{2}\s+\d{2}:\d{2}:\d{2}` -/
def matchSlashDateTs (s : PyStr) : Option Nat := do
  let r ← takeClass isDigitC 4 s
  let r ← expectC '/' r
  let r ← takeClass isDigitC 2 r
  let r ← expectC '/' r
  let r ← takeClass isDigitC 2 r
  let w := runLen pyIsSpace r
  guard (1 ≤ w)
  let r := r.drop w
  let r ← takeClass isDigitC 2 r
  let r ← expectC ':' r
  let r ← takeClass isDigitC 2 r
  let r ← expectC ':' r
  let r ← takeClass isDigitC 2 r
  return s.length - r.length

/-- `\[\d{10,13}\]` — digits and `']'` are disjoint, so greedy `{10,13}`
reduces to: the maximal digit run has length 10–13 and `']'` follows. -/
def matchBracketEpoch (s : PyStr) : Option Nat := do
  let r ← expectC '[' s
  let n := runLen isDigitC r
  guard (10 ≤ n ∧ n ≤ 13)
  let r ← expectC ']' (r.drop n)
  return s.length - r.length

/-- `\[\d{4}-\d{2}-\d{2}\s+\d{2}:\d{2}:\d{2}(?:[,\.]\d+)?\]` -/
def matchBracketDate (s : PyStr) : Option Nat := do
  let r ← expectC '[' s
  let r ← takeClass isDigitC 4 r
  let r ← expectC '-' r
  let r ← takeClass isDigitC 2 r
  let r ← expectC '-' r
  let r ← takeClass isDigitC 2 r
  let w := runLen pyIsSpace r
  guard (1 ≤ w)
  let r := r.drop w
  let r ← takeClass isDigitC 2 r
  let r ← expectC ':' r
  let r ← takeClass isDigitC 2 r
  let r ← expectC ':' r
  let r ← takeClass isDigitC 2 r
  let r := optFrac (fun c => c = ',' || c = '.') r
  let r ← expectC ']' r
  return s.length - r.length

/-- `TIMESTAMP_REGEX`: alternation of the five timestamp shapes, tried
left to right at one position (the first shape is the same ISO-8601
pattern as in normalization). -/
def matchTimestampAlt (s : PyStr) : Option Nat :=
  (matchISOts [] s) <|> matchMsTs s <|> matchSlashDateTs s <|>
    matchBracketEpoch s <|> matchBracketDate s

/-- `TIMESTAMP_REGEX.search`: leftmost match, returning the matched text. -/
def tsSearch : PyStr → Option PyStr
  | [] => none
  | c :: rest =>
    match matchTimestampAlt (c :: rest) with
    | some n => some ((c :: rest).take n)
    | none => tsSearch rest

/-- `TIMESTAMP_REGEX.match` (anchored at the start). -/
def tsMatchAtStart (s : PyStr) : Bool := (matchTimestampAlt s).isSome

/-- The `LOG_LEVEL_PATTERN` alternation, in source order. -/
def LEVEL_WORDS : List String :=
  ["TRACE", "DEBUG", "INFO", "INFORMATION", "WARN", "WARNING", "ERROR",
   "ERR", "FATAL", "CRITICAL", "CRIT", "SEVERE", "PANIC"]

/-- Case-insensitive literal consumption (`re.IGNORECASE`): the pattern
word is given uppercase. -/
def ciPrefix : PyStr → PyStr → Option PyStr
  | [], s => some s
  | c :: ws, d :: s' => if pyUpperChar d = c then ciPrefix ws s' else none
  | _ :: _, [] => none

/-- `\b(TRACE|...|PANIC)\b` (ignorecase) at one position: the first
character of every alternative is a letter, so the left boundary needs a
non-word predecessor; an alternative only succeeds if a non-word
character (or the end) follows. -/
def matchLevelAt (prev : Option Char) (s : PyStr) : Option Nat :=
  if optWord prev then none
  else
    LEVEL_WORDS.findSome? fun w =>
      match ciPrefix w.data s with
      | some r => if optWord r.head? then none else some (s.length - r.length)
      | none => none

/-- `LOG_LEVEL_PATTERN.search`: returns `(prefix, match, suffix)`. -/
def levelSearchGo (acc : PyStr) (prev : Option Char) :
    PyStr → Option (PyStr × PyStr × PyStr)
  | [] => none
  | c :: rest =>
    match matchLevelAt prev (c :: rest) with
    | some n => some (acc.reverse, (c :: rest).take n, (c :: rest).drop n)
    | none => levelSearchGo (c :: acc) (some c) rest

def levelSearch (s : PyStr) : Option (PyStr × PyStr × PyStr) :=
  levelSearchGo [] none s

/-- `LOG_LEVEL_PATTERN.match` (anchored at the start). -/
def levelMatchAtStart (s : PyStr) : Bool := (matchLevelAt none s).isSome

/-- `EXCEPTION_PATTERNS[0]`: `^\s*Traceback \(most recent call last\):`
(ignorecase). -/
def excTraceback (line : PyStr) : Bool :=
  (litList "traceback (most recent call last):".data
    (pyLower (line.dropWhile pyIsSpace))).isSome

/-- `EXCEPTION_PATTERNS[1]`: `^\s*at\s+[\w\.$]+\([\w]+\.\w+:\d+\)` —
all adjacent classes are disjoint, so greedy matching is exact. -/
def excJavaFrame (line : PyStr) : Bool :=
  (do
    let r := line.dropWhile pyIsSpace
    let r ← litStr "at" r
    let w := runLen pyIsSpace r
    guard (1 ≤ w)
    let r := r.drop w
    let n1 := runLen (fun c => isWordC c || c = '.' || c = '$') r
    guard (1 ≤ n1)
    let r ← expectC '(' (r.drop n1)
    let n2 := runLen isWordC r
    guard (1 ≤ n2)
    let r ← expectC '.' (r.drop n2)
    let n3 := runLen isWordC r
    guard (1 ≤ n3)
    let r ← expectC ':' (r.drop n3)
    let n4 := runLen isDigitC r
    guard (1 ≤ n4)
    let _ ← expectC ')' (r.drop n4)
    pure () : Option Unit).isSome

/-- Backtracking tail of `.*", line \d+`: some position carries the
literal followed by a digit. -/
def hasFileLineSuffix : PyStr → Bool
  | [] => false
  | c :: rest =>
    (match litStr "\", line " (c :: rest) with
     | some r => 1 ≤ runLen isDigitC r
     | none => false) || hasFileLineSuffix rest

/-- `EXCEPTION_PATTERNS[2]`: `^\s*File ".*", line \d+`. -/
def excPyFrame (line : PyStr) : Bool :=
  match litStr "File \"" (line.dropWhile pyIsSpace) with
  | some r => hasFileLineSuffix r
  | none => false

/-- `:\d+:\d+\)` at one position (disjoint classes, greedy exact). -/
def colonNumTail (s : PyStr) : Bool :=
  (do
    let r ← expectC ':' s
    let n1 := runLen isDigitC r
    guard (1 ≤ n1)
    let r ← expectC ':' (r.drop n1)
    let n2 := runLen isDigitC r
    guard (1 ≤ n2)
    let _ ← expectC ')' (r.drop n2)
    pure () : Option Unit).isSome

def hasColonNumAnywhere : PyStr → Bool
  | [] => false
  | c :: rest => colonNumTail (c :: rest) || hasColonNumAnywhere rest

/-- Backtracking `\(.*:\d+:\d+\)`: some `'('` is followed (anywhere) by
the colon-number tail. -/
def hasParenThenColon : PyStr → Bool
  | [] => false
  | c :: rest =>
    (c = '(' && hasColonNumAnywhere rest) || hasParenThenColon rest

/-- `EXCEPTION_PATTERNS[3]`: `^\s+at\s+.*\(.*:\d+:\d+\)`. -/
def excJsFrame (line : PyStr) : Bool :=
  (do
    let w := runLen pyIsSpace line
    guard (1 ≤ w)
    let r ← litStr "at" (line.drop w)
    let w2 := runLen pyIsSpace r
    guard (1 ≤ w2)
    guard (hasParenThenColon (r.drop w2))
    pure () : Option Unit).isSome

/-- `EXCEPTION_PATTERNS[4]`: `Exception|Error|Throwable` (ignorecase,
unanchored search). -/
def excKeyword (line : PyStr) : Bool :=
  decide ("exception".data <:+: pyLower line) ||
  decide ("error".data <:+: pyLower line) ||
  decide ("throwable".data <:+: pyLower line)

/-- The `EXCEPTION_PATTERNS` loop: each body sets `exception = line`, so
only whether *some* pattern fires matters. -/
def anyExceptionPattern (line : PyStr) : Bool :=
  excTraceback line || excJavaFrame line || excPyFrame line ||
    excJsFrame line || excKeyword line

/-- `CONTINUATION_PATTERNS[0]`: `^\s+at\s+`. -/
def contJavaAt (line : PyStr) : Bool :=
  (do
    let w := runLen pyIsSpace line
    guard (1 ≤ w)
    let r ← litStr "at" (line.drop w)
    guard (1 ≤ runLen pyIsSpace r)
    pure () : Option Unit).isSome

/-- `CONTINUATION_PATTERNS[1]`: `^\s+File\s+"`. -/
def contFile (line : PyStr) : Bool :=
  (do
    let w := runLen pyIsSpace line
    guard (1 ≤ w)
    let r ← litStr "File" (line.drop w)
    let w2 := runLen pyIsSpace r
    guard (1 ≤ w2)
    let _ ← expectC '"' (r.drop w2)
    pure () : Option Unit).isSome

/-- `CONTINUATION_PATTERNS[2]`: `^\s+\w+Error:` — the literal `Error`
consists of word characters and `':'` does not, so the backtracking
split point is forced to the end of the maximal word run. -/
def contWordError (line : PyStr) : Bool :=
  (do
    let w := runLen pyIsSpace line
    guard (1 ≤ w)
    let r := line.drop w
    let n := runLen isWordC r
    guard (6 ≤ n)
    guard ((r.take n).drop (n - 5) = "Error".data)
    let _ ← expectC ':' (r.drop n)
    pure () : Option Unit).isSome

/-- `CONTINUATION_PATTERNS[3]`: `^\s{4,}`. -/
def contIndent4 (line : PyStr) : Bool := 4 ≤ runLen pyIsSpace line

/-- `CONTINUATION_PATTERNS[4]`: `^\t+`. -/
def contTab (line : PyStr) : Bool := line.head? = some '\t'

/-- `CONTINUATION_PATTERNS[5]`: `^\s*\.\.\.\s*\d+\s+more`. -/
def contMore (line : PyStr) : Bool :=
  (do
    let r ← litStr "..." (line.dropWhile pyIsSpace)
    let r := r.dropWhile pyIsSpace
    let n := runLen isDigitC r
    guard (1 ≤ n)
    let r := r.drop n
    let w := runLen pyIsSpace r
    guard (1 ≤ w)
    let _ ← litStr "more" (r.drop w)
    pure () : Option Unit).isSome

/-- `CONTINUATION_PATTERNS[6]`: `^\s*Caused by:`. -/
def contCausedBy (line : PyStr) : Bool :=
  (litStr "Caused by:" (line.dropWhile pyIsSpace)).isSome

def anyContinuationPattern (line : PyStr) : Bool :=
  contJavaAt line || contFile line || contWordError line ||
    contIndent4 line || contTab line || contMore line || contCausedBy line

/-!
## `parsing.py` — `LogParser`

`json.loads` is an external library function; `_parse_json_line` (whose
result is governed by it) is therefore modelled as an explicit function
parameter `jsonO`.  Every verified input line takes the plain-text
branch, so no theorem depends on the parameter's value.
-/

/-- Characters removed by `re.sub(r'^[\s\-:\]]+', '', parts)`. -/
def sepChar (c : Char) : Bool := pyIsSpace c || c = '-' || c = ':' || c = ']'

/-- `LogParser._parse_plain_line`. -/
def parse_plain_line (line : PyStr) (line_num : Nat) : ParsedLogEntry :=
  let timestamp := tsSearch line
  let lvl := levelSearch line
  let level := match lvl with
    | some (_, mtext, _) => LogLevel.from_string mtext
    | none => LogLevel.UNKNOWN
  let message := match lvl with
    | some (_, _, after) =>
      let parts := stripPy after
      if parts ≠ [] then parts.dropWhile sepChar else line
    | none => line
  let hasExc := anyExceptionPattern line
  { raw_line := line
    line_number := line_num
    level := if hasExc ∧ level = .UNKNOWN then .ERROR else level
    message := message
    timestamp := timestamp
    logger := none
    exception := if hasExc then some line else none
    is_multiline := false }

/-- `LogParser._parse_single_line`: lines whose stripped form starts with
`'{'` first try the JSON path (the external `json.loads`-based
`_parse_json_line`, modelled by `jsonO`; `None` falls back to plain
parsing, and a returned entry — always truthy — is used directly). -/
def parse_single_line (jsonO : PyStr → Nat → Option ParsedLogEntry)
    (line : PyStr) (line_num : Nat) : ParsedLogEntry :=
  let stripped := stripPy line
  if stripped.head? = some '{' then
    match jsonO stripped line_num with
    | some e => e
    | none => parse_plain_line line line_num
  else parse_plain_line line line_num

/-- `LogParser._is_continuation_line`. -/
def is_continuation_line (line : PyStr) : Bool :=
  if anyContinuationPattern line then true
  else
    let stripped := stripPy line
    if !tsMatchAtStart stripped then
      if !stripped.isEmpty ∧ !levelMatchAtStart (stripped.take 20) then
        if (line.head? = some ' ' ∨ line.head? = some '\t') ∧ !stripped.isEmpty
        then true else false
      else false
    else false

/-- `LogParser._might_have_continuation`. -/
def might_have_continuation (entry : ParsedLogEntry) : Bool :=
  if entry.has_exception then true
  else if entry.level == .ERROR || entry.level == .FATAL then true
  else
    let ml := pyLower entry.message
    ["exception", "error", "traceback", "stack", "caused by"].any
      (fun k => decide (k.data <:+: ml))

/-- `LogParser._append_to_multiline` (note the Python truthiness test on
the exception string: an empty stored string takes the else branch). -/
def append_to_multiline (p : ParsedLogEntry) (line : PyStr) : ParsedLogEntry :=
  let p := { p with is_multiline := true, raw_line := p.raw_line ++ '\n' :: line }
  match p.exception with
  | some (e0 :: erest) => { p with exception := some ((e0 :: erest) ++ '\n' :: line) }
  | _ =>
    if anyExceptionPattern line then { p with exception := some line } else p

/-- The loop of `LogParser.parse_lines`: the two-state accumulator over
enumerated lines, with the pending multiline entry threaded through. -/
def parseLinesAux (jsonO : PyStr → Nat → Option ParsedLogEntry) :
    List (Nat × PyStr) → Option ParsedLogEntry → List ParsedLogEntry
  | [], pending => pending.toList
  | (n, line) :: rest, pending =>
    if (stripPy line).isEmpty then parseLinesAux jsonO rest pending
    else if is_continuation_line line ∧ pending.isSome then
      parseLinesAux jsonO rest (pending.map (fun p => append_to_multiline p line))
    else
      let e := parse_single_line jsonO line n
      if might_have_continuation e then
        pending.toList ++ parseLinesAux jsonO rest (some e)
      else
        pending.toList ++ e :: parseLinesAux jsonO rest none

/-- `LogParser.parse_lines` over a finite line list (lines are numbered
from 1; the source resets the pending state on entry). -/
def parse_lines (jsonO : PyStr → Nat → Option ParsedLogEntry)
    (lines : List PyStr) : List ParsedLogEntry :=
  parseLinesAux jsonO (List.enumFrom 1 lines) none

/-- The five lines of the multiline-reconstruction example of the
specification (and claim C2). -/
def c2Lines : List PyStr :=
  [ "2024-01-15 10:30:45 ERROR Exception occurred".data
  , "Traceback (most recent call last):".data
  , "  File \"app.py\", line 42".data
  , "ValueError: bad input".data
  , "2024-01-15 10:30:46 INFO Normal log".data ]

/-- C2 (code bug): parsing the five-line example yields **4** entries,
not 2.  The unindented `"Traceback …"` line fails every continuation
pattern (it starts with a letter, not whitespace), so the pending ERROR
entry is flushed as a plain single-line entry (`is_multiline = false`,
no `"Traceback"` in its raw text); the Traceback entry then absorbs only
the indented `File` line, and `"ValueError: bad input"` becomes its own
entry. -/
theorem parse_lines_multiline_example_yields_four_entries :
    (parse_lines (fun _ _ => none) c2Lines).length = 4 ∧
    ((parse_lines (fun _ _ => none) c2Lines).head?.map
      (fun e => e.is_multiline) = some false) ∧
    ¬ ("Traceback".data <:+:
        (((parse_lines (fun _ _ => none) c2Lines).head?.map
          (fun e => e.raw_line)).getD [])) ∧
    (((parse_lines (fun _ _ => none) c2Lines).drop 1).head?.map
      (fun e => (e.is_multiline, decide ("Traceback".data <:+: e.raw_line))) =
      some (true, true)) := by
  refine ⟨by decide, by decide, by decide, by decide⟩

/-- C1 (code bug): `normalize_message` is **not** idempotent.  On the
message `"x:  5"` (two spaces after the colon) the first pass leaves the
digit alone — the `(?<=:\s)` lookbehind sees two spaces — but collapses
the whitespace, so the second pass rewrites the digit to `<NUM>`:
re-normalizing an already-normalized string is not a no-op. -/
theorem normalize_message_not_idempotent :
    normalize_message "x:  5".data = "x: 5".data ∧
    normalize_message "x: 5".data = "x: <NUM>".data ∧
    normalize_message (normalize_message "x:  5".data) ≠
      normalize_message "x:  5".data := by
  refine ⟨by decide, by decide, ?_⟩
  decide

/-!
## `clustering.py` — `ErrorClusterer`

The TF-IDF vectorizer and `MiniBatchKMeans` are external `sklearn`
components.  They are modelled as an explicit parameter
`vec : Option VecOut`: `none` is the `ValueError` raised by
`fit_transform` (empty vocabulary), and `some v` carries the label
array returned by `fit_predict` (one label per sample, which sklearn
guarantees — theorems take that as a hypothesis) together with the
centroid keyword extraction (a pure numpy computation on the matrix).
Everything else — the degenerate-case handling, grouping by label,
counting, ranking, id reassignment, representative selection and the
simple keyword extraction — is repository code, embedded below.
-/

/-- `LOG_STOP_WORDS`. -/
def LOG_STOP_WORDS : List PyStr :=
  [ "the", "a", "an", "is", "are", "was", "were", "be", "been", "being"
  , "have", "has", "had", "do", "does", "did", "will", "would", "could"
  , "should", "may", "might", "must", "shall", "can", "need", "dare"
  , "ought", "used", "to", "of", "in", "for", "on", "with", "at", "by"
  , "from", "as", "into", "through", "during", "before", "after", "above"
  , "below", "between", "under", "again", "further", "then", "once"
  , "here", "there", "when", "where", "why", "how", "all", "each", "few"
  , "more", "most", "other", "some", "such", "no", "nor", "not", "only"
  , "own", "same", "so", "than", "too", "very", "just", "and", "but"
  , "if", "or", "because", "until", "while", "this", "that", "these"
  , "those", "it", "its", "log", "logging", "logger", "timestamp", "time"
  , "date", "level", "message", "msg", "info", "debug", "warn", "warning"
  ].map String.data

/-- `re.findall(r'\b[a-zA-Z_][a-zA-Z0-9_]*\b', s)` (fuelled): the tokens
are the maximal `\w` runs whose first character is a letter or
underscore; runs starting with a digit contain no valid start position
(every inner position has a word-character predecessor) and are skipped
whole. -/
def findTokensFuel : Nat → PyStr → List PyStr
  | 0, _ => []
  | _ + 1, [] => []
  | fuel + 1, c :: rest =>
    if isWordC c then
      let run := c :: rest.takeWhile isWordC
      let rest' := rest.dropWhile isWordC
      if isAlphaC c || c = '_' then run :: findTokensFuel fuel rest'
      else findTokensFuel fuel rest'
    else findTokensFuel fuel rest

def findTokens (s : PyStr) : List PyStr := findTokensFuel s.length s

/-- One `Counter` increment (Python dicts keep insertion order). -/
def bumpWord : List (PyStr × Nat) → PyStr → List (PyStr × Nat)
  | [], w => [(w, 1)]
  | p :: rest, w =>
    if p.1 = w then (p.1, p.2 + 1) :: rest else p :: bumpWord rest w

/-- Stable descending insertion by a numeric key: the new element goes
before the first strictly-smaller key, after equal keys — the ordering
produced by Python's stable `sorted(..., reverse=True)` /
`Counter.most_common`. -/
def insertDesc {α : Type} (key : α → Nat) (x : α) : List α → List α
  | [] => [x]
  | y :: ys => if key x < key y then y :: insertDesc key x ys else x :: y :: ys

def sortByCountDesc {α : Type} (key : α → Nat) : List α → List α
  | [] => []
  | x :: xs => insertDesc key x (sortByCountDesc key xs)

/-- `ErrorClusterer._extract_keywords_simple`: frequency counting of
non-stopword tokens of length > 2 over the lowercased template texts,
top 10 (`Counter.most_common(10)` — stable descending by count). -/
def extract_keywords_simple (templates : List ErrorTemplate) : List PyStr :=
  let counts := templates.foldl
    (fun m t =>
      let words := (findTokens (pyLower t.template)).filter
        (fun w => !LOG_STOP_WORDS.contains w && decide (2 < w.length))
      words.foldl bumpWord m)
    []
  ((sortByCountDesc (fun p => p.2) counts).take 10).map (fun p => p.1)

/-- `ErrorClusterer._create_single_cluster`. -/
def create_single_cluster (templates : List ErrorTemplate) : List ErrorCluster :=
  match templates with
  | [] => []
  | t0 :: _ =>
    [{ cluster_id := 0
       templates := templates
       total_count := (templates.map (fun t => t.count)).sum
       keywords := extract_keywords_simple templates
       representative_sample := t0.template }]

/-- Python `max(ts, key=lambda t: t.count)`: the first maximum. -/
def pyMaxByCount : List ErrorTemplate → Option ErrorTemplate
  | [] => none
  | t :: ts => some (ts.foldl (fun acc x => if acc.count < x.count then x else acc) t)

/-- Ascending insertion sort for the distinct label keys
(`sorted(clusters_dict.items())`; the keys are distinct, so stability
is irrelevant). -/
def insertAsc (x : Nat) : List Nat → List Nat
  | [] => [x]
  | y :: ys => if x < y then x :: y :: ys else y :: insertAsc x ys

def sortAsc : List Nat → List Nat
  | [] => []
  | x :: xs => insertAsc x (sortAsc xs)

/-- The members of the group for one k-means label: `clusters_dict[label]`,
in original sample order. -/
def membersForLabel (templates : List ErrorTemplate) (labels : List Nat)
    (l : Nat) : List ErrorTemplate :=
  ((templates.zip labels).filter (fun p => p.2 = l)).map (fun p => p.1)

/-- One cluster of the `_build_clusters` loop body, before re-ranking:
id = the raw label, members grouped by label, total = sum of member
counts, centroid keywords (external numerics, via `kwOracle` on the
member indices), representative = `max(members, key=count)`. -/
def mkClusterForLabel (templates : List ErrorTemplate) (labels : List Nat)
    (kwOracle : List Nat → List PyStr) (l : Nat) : ErrorCluster :=
  { cluster_id := l
    templates := membersForLabel templates labels l
    total_count := ((membersForLabel templates labels l).map (fun t => t.count)).sum
    keywords := kwOracle ((List.range labels.length).filter
      (fun i => labels.get? i = some l))
    representative_sample :=
      ((pyMaxByCount (membersForLabel templates labels l)).map
        (fun t => t.template)).getD [] }

/-- The final re-numbering of `_build_clusters`: ids become positions. -/
def reassignIds (cs : List ErrorCluster) : List ErrorCluster :=
  cs.enum.map (fun (p : Nat × ErrorCluster) => { p.2 with cluster_id := p.1 })

/-- `ErrorClusterer._build_clusters`: group templates by k-means label
(one cluster per distinct label, labels ascending as
`sorted(clusters_dict.items())`), sort the clusters by total occurrence
count descending, and reassign contiguous ids. -/
def build_clusters (templates : List ErrorTemplate) (labels : List Nat)
    (kwOracle : List Nat → List PyStr) : List ErrorCluster :=
  reassignIds (sortByCountDesc (fun c => c.total_count)
    ((sortAsc (labels.dedup)).map (mkClusterForLabel templates labels kwOracle)))

/-- The clusterer's constructor configuration. -/
structure ClustererConfig where
  max_clusters : Nat := 10
  min_samples_per_cluster : Nat := 2

/-- The outcome of the external vectorize-and-cluster step. -/
structure VecOut where
  labels : List Nat
  clusterKeywords : List Nat → List PyStr

/-- `ErrorClusterer.cluster_templates`: empty map → no clusters; fewer
templates than `min_samples_per_cluster` → single cluster; vectorization
`ValueError` (`vec = none`) → single cluster; a computed cluster count
of ≤ 1 → single cluster; otherwise group by the k-means labels. -/
def cluster_templates (cfg : ClustererConfig) (vec : Option VecOut)
    (templates : List (PyStr × ErrorTemplate)) : List ErrorCluster :=
  if templates.isEmpty then []
  else
    let template_list := templates.map (fun p => p.2)
    if template_list.length < cfg.min_samples_per_cluster then
      create_single_cluster template_list
    else
      match vec with
      | none => create_single_cluster template_list
      | some v =>
        let n_samples := template_list.length
        let n_clusters :=
          min cfg.max_clusters (max 1 (n_samples / cfg.min_samples_per_cluster))
        if n_clusters ≤ 1 then create_single_cluster template_list
        else build_clusters template_list v.labels v.clusterKeywords

/-!
## Theorems C4–C7 about the clusterer
-/

theorem insertDesc_perm {α : Type} (key : α → Nat) (x : α) (l : List α) :
    (insertDesc key x l).Perm (x :: l) := by
  induction l with
  | nil => simp [insertDesc]
  | cons y ys ih =>
    simp only [insertDesc]
    split
    · exact ((ih.cons y).trans (List.Perm.swap x y ys)).symm.symm
    · exact List.Perm.refl _

theorem sortByCountDesc_perm {α : Type} (key : α → Nat) (l : List α) :
    (sortByCountDesc key l).Perm l := by
  induction l with
  | nil => simp [sortByCountDesc]
  | cons x xs ih =>
    exact (insertDesc_perm key x _).trans (ih.cons x)

theorem insertDesc_sorted {α : Type} (key : α → Nat) (x : α) (l : List α)
    (h : l.Pairwise (fun a b => key b ≤ key a)) :
    (insertDesc key x l).Pairwise (fun a b => key b ≤ key a) := by
  induction l with
  | nil => simp [insertDesc]
  | cons y ys ih =>
    rw [List.pairwise_cons] at h
    obtain ⟨hy, hys⟩ := h
    simp only [insertDesc]
    split
    · refine List.Pairwise.cons ?_ (ih hys)
      intro z hz
      have hz' := (insertDesc_perm key x ys).mem_iff.1 hz
      rw [List.mem_cons] at hz'
      rcases hz' with rfl | hz'
      · omega
      · exact hy z hz'
    · refine List.Pairwise.cons ?_ (List.pairwise_cons.2 ⟨hy, hys⟩)
      intro z hz
      rw [List.mem_cons] at hz
      rcases hz with rfl | hz
      · omega
      · exact Nat.le_trans (hy z hz) (by omega)

theorem sortByCountDesc_sorted {α : Type} (key : α → Nat) (l : List α) :
    (sortByCountDesc key l).Pairwise (fun a b => key b ≤ key a) := by
  induction l with
  | nil => simp [sortByCountDesc]
  | cons x xs ih => exact insertDesc_sorted key x _ ih

theorem insertAsc_perm (x : Nat) (l : List Nat) :
    (insertAsc x l).Perm (x :: l) := by
  induction l with
  | nil => simp [insertAsc]
  | cons y ys ih =>
    simp only [insertAsc]
    split
    · exact List.Perm.refl _
    · exact ((ih.cons y).trans (List.Perm.swap x y ys)).symm.symm

theorem sortAsc_perm (l : List Nat) : (sortAsc l).Perm l := by
  induction l with
  | nil => simp [sortAsc]
  | cons x xs ih => exact (insertAsc_perm x _).trans (ih.cons x)

theorem mem_sortAsc {x : Nat} {l : List Nat} : x ∈ sortAsc l ↔ x ∈ l :=
  (sortAsc_perm l).mem_iff

/-- Grouping a pair list by a duplicate-free covering key list and
concatenating the groups permutes the original list. -/
theorem partition_perm {α : Type} (keys : List Nat) :
    ∀ pairs : List (α × Nat), keys.Nodup →
      (∀ p ∈ pairs, p.2 ∈ keys) →
      ((keys.map (fun l =>
        (pairs.filter (fun p => p.2 = l)).map (fun p => p.1))).flatten).Perm
        (pairs.map (fun p => p.1)) := by
  induction keys with
  | nil =>
    intro pairs _ hcover
    cases pairs with
    | nil => simp
    | cons p ps => exact absurd (hcover p (by simp)) (by simp)
  | cons k ks ih =>
    intro pairs hnodup hcover
    rw [List.nodup_cons] at hnodup
    obtain ⟨hk, hks⟩ := hnodup
    rw [List.map_cons, List.flatten_cons]
    have hrest :
        ∀ l ∈ ks, pairs.filter (fun p => p.2 = l) =
          (pairs.filter (fun p => !decide (p.2 = k))).filter
            (fun p => p.2 = l) := by
      intro l hl
      rw [List.filter_filter]
      apply List.filter_congr
      intro p _
      by_cases hpl : p.2 = l
      · have hlk : ¬ l = k := fun he => hk (he ▸ hl)
        have hpk : ¬ p.2 = k := by rw [hpl]; exact hlk
        simp [hpl, hpk, hlk]
      · simp [hpl]
    have hcover' :
        ∀ p ∈ pairs.filter (fun p => !decide (p.2 = k)), p.2 ∈ ks := by
      intro p hp
      have hmem := List.mem_of_mem_filter hp
      have hne := List.of_mem_filter hp
      simp only [Bool.not_eq_eq_eq_not, Bool.not_true, decide_eq_false_iff_not] at hne
      have hck := hcover p hmem
      rw [List.mem_cons] at hck
      rcases hck with h | h
      · exact absurd h hne
      · exact h
    have hihp := ih (pairs.filter (fun p => !decide (p.2 = k))) hks hcover'
    have hmapeq :
        ks.map (fun l => (pairs.filter (fun p => p.2 = l)).map (fun p => p.1)) =
        ks.map (fun l =>
          ((pairs.filter (fun p => !decide (p.2 = k))).filter
            (fun p => p.2 = l)).map (fun p => p.1)) :=
      List.map_congr_left (fun l hl => by rw [hrest l hl])
    rw [hmapeq]
    have hsplit := List.filter_append_perm (fun p => decide (p.2 = k)) pairs
    refine List.Perm.trans (List.Perm.append_left _ hihp) ?_
    refine List.Perm.trans (List.Perm.of_eq (List.map_append _ _ _).symm) ?_
    exact hsplit.map _

theorem create_single_cluster_templates_flatten (tl : List ErrorTemplate) :
    ((create_single_cluster tl).map (fun c => c.templates)).flatten = tl := by
  cases tl <;> simp [create_single_cluster]

theorem reassignIds_map_templates (cs : List ErrorCluster) :
    (reassignIds cs).map (fun c => c.templates) = cs.map (fun c => c.templates) := by
  unfold reassignIds
  rw [List.map_map]
  have h2 := congrArg (List.map (fun c : ErrorCluster => c.templates))
    (List.enum_map_snd cs)
  rw [List.map_map] at h2
  exact h2

theorem reassignIds_map_total (cs : List ErrorCluster) :
    (reassignIds cs).map (fun c => c.total_count) =
      cs.map (fun c => c.total_count) := by
  unfold reassignIds
  rw [List.map_map]
  have h2 := congrArg (List.map (fun c : ErrorCluster => c.total_count))
    (List.enum_map_snd cs)
  rw [List.map_map] at h2
  exact h2

theorem reassignIds_map_ids (cs : List ErrorCluster) :
    (reassignIds cs).map (fun c => c.cluster_id) = List.range cs.length := by
  unfold reassignIds
  rw [List.map_map]
  have : ((fun c : ErrorCluster => c.cluster_id) ∘
      (fun (p : Nat × ErrorCluster) =>
        ({ p.2 with cluster_id := p.1 } : ErrorCluster))) = Prod.fst := rfl
  rw [this, List.enum_map_fst]

theorem reassignIds_length (cs : List ErrorCluster) :
    (reassignIds cs).length = cs.length := by
  unfold reassignIds
  rw [List.length_map, List.enum_length]

/-- The multiset of member templates of `_build_clusters` is exactly the
input template list (given one k-means label per sample). -/
theorem build_clusters_templates_perm (tl : List ErrorTemplate)
    (labels : List Nat) (kw : List Nat → List PyStr)
    (hlen : labels.length = tl.length) :
    (((build_clusters tl labels kw).map (fun c => c.templates)).flatten).Perm tl := by
  unfold build_clusters
  rw [reassignIds_map_templates]
  have hperm1 := (sortByCountDesc_perm (fun c : ErrorCluster => c.total_count)
    ((sortAsc (labels.dedup)).map (mkClusterForLabel tl labels kw))).map
    (fun c => c.templates)
  refine (hperm1.flatten).trans ?_
  rw [List.map_map]
  have hbody : ((fun c : ErrorCluster => c.templates) ∘ mkClusterForLabel tl labels kw) =
      fun l => ((tl.zip labels).filter (fun p => p.2 = l)).map (fun p => p.1) := by
    funext l
    rfl
  rw [hbody]
  have hnodup : (sortAsc (labels.dedup)).Nodup :=
    (sortAsc_perm (labels.dedup)).nodup_iff.2 (List.nodup_dedup labels)
  have hcover : ∀ p ∈ tl.zip labels, p.2 ∈ sortAsc (labels.dedup) := by
    intro p hp
    exact mem_sortAsc.2 (List.mem_dedup.2 (List.of_mem_zip hp).2)
  have hpart := partition_perm (sortAsc (labels.dedup)) (tl.zip labels) hnodup hcover
  refine hpart.trans ?_
  exact List.Perm.of_eq (List.map_fst_zip tl labels (by omega))

/-- C4: the cluster partition is exhaustive and disjoint — for every
non-empty template map (and one k-means label per sample, as sklearn
guarantees), the concatenation of the member lists of all clusters
returned by `cluster_templates` is a permutation of the input template
list, so every template lands in exactly one cluster. -/
theorem cluster_templates_partition (cfg : ClustererConfig) (vec : Option VecOut)
    (templates : List (PyStr × ErrorTemplate)) (hne : templates ≠ [])
    (hmin : 1 ≤ cfg.min_samples_per_cluster)
    (hlen : ∀ v, vec = some v → v.labels.length = templates.length) :
    (((cluster_templates cfg vec templates).map (fun c => c.templates)).flatten).Perm
      (templates.map (fun p => p.2)) := by
  obtain ⟨q, qs, rfl⟩ : ∃ q qs, templates = q :: qs := by
    cases templates with
    | nil => exact absurd rfl hne
    | cons q qs => exact ⟨q, qs, rfl⟩
  rcases vec with _ | v
  · simp only [cluster_templates, List.isEmpty_cons, Bool.false_eq_true, if_false]
    split
    · rw [create_single_cluster_templates_flatten]
    · rw [create_single_cluster_templates_flatten]
  · simp only [cluster_templates, List.isEmpty_cons, Bool.false_eq_true, if_false]
    split
    · rw [create_single_cluster_templates_flatten]
    · split
      · rw [create_single_cluster_templates_flatten]
      · exact build_clusters_templates_perm ((q :: qs).map (fun p => p.2))
          v.labels v.clusterKeywords (by rw [hlen v rfl]; simp)

/-- Witness for C4 at a concrete four-template map with labels
`[1, 0, 1, 0]`. -/
theorem cluster_templates_partition_witness :
    (((cluster_templates {} (some ⟨[1, 0, 1, 0], fun _ => []⟩)
        [("a x".data, ⟨"a x".data, [], 2, 1⟩),
         ("b y".data, ⟨"b y".data, [], 7, 2⟩),
         ("a z".data, ⟨"a z".data, [], 1, 3⟩),
         ("c w".data, ⟨"c w".data, [], 4, 4⟩)]).map
      (fun c => c.templates)).flatten).Perm
      ([("a x".data, ⟨"a x".data, [], 2, 1⟩),
        ("b y".data, ⟨"b y".data, [], 7, 2⟩),
        ("a z".data, ⟨"a z".data, [], 1, 3⟩),
        ("c w".data, ⟨"c w".data, [], 4, 4⟩)].map (fun p => p.2)) :=
  cluster_templates_partition {} (some ⟨[1, 0, 1, 0], fun _ => []⟩) _
    (by decide) (by decide) (fun v hv => by cases hv; decide)

theorem pairwise_of_map_total {cs : List ErrorCluster}
    (h : (cs.map (fun c => c.total_count)).Pairwise (fun a b => b ≤ a)) :
    cs.Pairwise (fun a b => b.total_count ≤ a.total_count) := by
  rw [List.pairwise_map] at h
  exact h

theorem build_clusters_sorted (tl : List ErrorTemplate) (labels : List Nat)
    (kw : List Nat → List PyStr) :
    (build_clusters tl labels kw).Pairwise
      (fun a b => b.total_count ≤ a.total_count) := by
  apply pairwise_of_map_total
  unfold build_clusters
  rw [reassignIds_map_total, List.pairwise_map]
  exact sortByCountDesc_sorted (fun c : ErrorCluster => c.total_count) _

theorem build_clusters_ids (tl : List ErrorTemplate) (labels : List Nat)
    (kw : List Nat → List PyStr) :
    (build_clusters tl labels kw).map (fun c => c.cluster_id) =
      List.range (build_clusters tl labels kw).length := by
  unfold build_clusters
  rw [reassignIds_map_ids, reassignIds_length]

/-- C5: the returned cluster list is sorted by total occurrence count
descending and its ids are exactly `0, 1, …, k-1` in list order, so the
cluster with id 0 carries the largest total count. -/
theorem cluster_templates_ranking (cfg : ClustererConfig) (vec : Option VecOut)
    (templates : List (PyStr × ErrorTemplate)) (hne : templates ≠ [])
    (hmin : 1 ≤ cfg.min_samples_per_cluster)
    (hlen : ∀ v, vec = some v → v.labels.length = templates.length) :
    ((cluster_templates cfg vec templates).Pairwise
      (fun a b => b.total_count ≤ a.total_count)) ∧
    (cluster_templates cfg vec templates).map (fun c => c.cluster_id) =
      List.range (cluster_templates cfg vec templates).length := by
  obtain ⟨q, qs, rfl⟩ : ∃ q qs, templates = q :: qs := by
    cases templates with
    | nil => exact absurd rfl hne
    | cons q qs => exact ⟨q, qs, rfl⟩
  rcases vec with _ | v
  · simp only [cluster_templates, List.isEmpty_cons, Bool.false_eq_true, if_false]
    split
    · exact ⟨by simp [create_single_cluster],
        by simp [create_single_cluster]; decide⟩
    · exact ⟨by simp [create_single_cluster],
        by simp [create_single_cluster]; decide⟩
  · simp only [cluster_templates, List.isEmpty_cons, Bool.false_eq_true, if_false]
    split
    · exact ⟨by simp [create_single_cluster],
        by simp [create_single_cluster]; decide⟩
    · split
      · exact ⟨by simp [create_single_cluster],
          by simp [create_single_cluster]; decide⟩
      · exact ⟨build_clusters_sorted _ _ _, build_clusters_ids _ _ _⟩

/-- Witness for C5 at the same concrete input as the C4 witness. -/
theorem cluster_templates_ranking_witness :
    ((cluster_templates {} (some ⟨[1, 0, 1, 0], fun _ => []⟩)
        [("a x".data, ⟨"a x".data, [], 2, 1⟩),
         ("b y".data, ⟨"b y".data, [], 7, 2⟩),
         ("a z".data, ⟨"a z".data, [], 1, 3⟩),
         ("c w".data, ⟨"c w".data, [], 4, 4⟩)]).Pairwise
      (fun a b => b.total_count ≤ a.total_count)) ∧
    (cluster_templates {} (some ⟨[1, 0, 1, 0], fun _ => []⟩)
        [("a x".data, ⟨"a x".data, [], 2, 1⟩),
         ("b y".data, ⟨"b y".data, [], 7, 2⟩),
         ("a z".data, ⟨"a z".data, [], 1, 3⟩),
         ("c w".data, ⟨"c w".data, [], 4, 4⟩)]).map (fun c => c.cluster_id) =
      List.range (cluster_templates {} (some ⟨[1, 0, 1, 0], fun _ => []⟩)
        [("a x".data, ⟨"a x".data, [], 2, 1⟩),
         ("b y".data, ⟨"b y".data, [], 7, 2⟩),
         ("a z".data, ⟨"a z".data, [], 1, 3⟩),
         ("c w".data, ⟨"c w".data, [], 4, 4⟩)]).length :=
  cluster_templates_ranking {} (some ⟨[1, 0, 1, 0], fun _ => []⟩) _
    (by decide) (by decide) (fun v hv => by cases hv; decide)

theorem foldlMax_spec (ts : List ErrorTemplate) :
    ∀ acc : ErrorTemplate,
      (ts.foldl (fun a x => if a.count < x.count then x else a) acc ∈ acc :: ts) ∧
      (∀ x ∈ acc :: ts,
        x.count ≤ (ts.foldl (fun a x => if a.count < x.count then x else a) acc).count) := by
  induction ts with
  | nil =>
    intro acc
    refine ⟨by simp, ?_⟩
    intro x hx
    rw [List.mem_cons] at hx
    rcases hx with rfl | hx
    · simp
    · simp at hx
  | cons t ts ih =>
    intro acc
    simp only [List.foldl_cons]
    obtain ⟨ihmem, ihle⟩ := ih (if acc.count < t.count then t else acc)
    constructor
    · rw [List.mem_cons] at ihmem ⊢
      rcases ihmem with heq | hmem
      · rw [heq]
        split
        · right; exact List.mem_cons_self t ts
        · left; rfl
      · right; exact List.mem_cons_of_mem t hmem
    · intro x hx
      rw [List.mem_cons, List.mem_cons] at hx
      rcases hx with rfl | rfl | hx
      · refine Nat.le_trans ?_ (ihle _ (List.mem_cons_self _ _))
        split <;> omega
      · refine Nat.le_trans ?_ (ihle _ (List.mem_cons_self _ _))
        split <;> omega
      · exact ihle x (List.mem_cons_of_mem _ hx)

theorem pyMax_spec (t : ErrorTemplate) (ts : List ErrorTemplate) :
    ∃ m, pyMaxByCount (t :: ts) = some m ∧ m ∈ t :: ts ∧
      ∀ x ∈ t :: ts, x.count ≤ m.count := by
  obtain ⟨hmem, hle⟩ := foldlMax_spec ts t
  exact ⟨_, rfl, hmem, hle⟩

theorem exists_pair_of_mem_labels :
    ∀ (labels : List Nat) (tl : List ErrorTemplate) (l : Nat),
      labels.length = tl.length → l ∈ labels →
      ∃ p ∈ tl.zip labels, p.2 = l := by
  intro labels
  induction labels with
  | nil => intro tl l _ h; simp at h
  | cons x ls ih =>
    intro tl l hlen hl
    cases tl with
    | nil => simp at hlen
    | cons t tr =>
      rw [List.mem_cons] at hl
      rcases hl with rfl | hl
      · exact ⟨(t, l), by simp [List.zip_cons_cons], rfl⟩
      · obtain ⟨p, hp, hpl⟩ := ih tr l (by simpa using hlen) hl
        exact ⟨p, by rw [List.zip_cons_cons]; exact List.mem_cons_of_mem _ hp, hpl⟩

/-- The property claim C6 asserts of every cluster: the representative
sample is the template text of a highest-count member. -/
def ClaimRepresentativeIsMax (cs : List ErrorCluster) : Prop :=
  ∀ c ∈ cs, ∃ m ∈ c.templates, c.representative_sample = m.template ∧
    ∀ x ∈ c.templates, x.count ≤ m.count

/-- C6 counterexample: with two placeholder-only templates (counts 1 and
5), vectorization genuinely fails on the real code (`_prepare_text`
reduces both texts to the empty string, so `TfidfVectorizer` raises the
empty-vocabulary `ValueError`, modelled as `vec = none`), and the
single-cluster fallback picks `templates[0].template` — the count-1
template — as representative rather than the count-5 one. -/
theorem cluster_fallback_representative_not_highest_count :
    ¬ ClaimRepresentativeIsMax
      (cluster_templates {} none
        [("<ID>".data, { template := "<ID>".data
                         original_messages := ["id 1".data]
                         count := 1
                         first_occurrence_line := 1 }),
         ("<NUM>".data, { template := "<NUM>".data
                          original_messages := ["n 5".data]
                          count := 5
                          first_occurrence_line := 2 })]) := by
  simp only [ClaimRepresentativeIsMax]
  decide

/-- C6 amended: in every cluster produced by the k-means grouping path
(`_build_clusters`) the representative sample is the template text of a
member with the highest occurrence count, but in the single-cluster
fallback the representative is the *first* template's text (which need
not have the highest count). -/
theorem cluster_representatives (tl : List ErrorTemplate) (labels : List Nat)
    (kw : List Nat → List PyStr) (hlen : labels.length = tl.length) :
    ClaimRepresentativeIsMax (build_clusters tl labels kw) ∧
    (∀ t0 ts, (create_single_cluster (t0 :: ts)).map
      (fun c => c.representative_sample) = [t0.template]) := by
  constructor
  · intro c hc
    unfold build_clusters reassignIds at hc
    rw [List.mem_map] at hc
    obtain ⟨p, hpenum, rfl⟩ := hc
    have hsnd : p.2 ∈ sortByCountDesc (fun c : ErrorCluster => c.total_count)
        ((sortAsc (labels.dedup)).map (mkClusterForLabel tl labels kw)) := by
      have := List.mem_map_of_mem Prod.snd hpenum
      rwa [List.enum_map_snd] at this
    have hclusters := (sortByCountDesc_perm (fun c : ErrorCluster => c.total_count)
      ((sortAsc (labels.dedup)).map (mkClusterForLabel tl labels kw))).mem_iff.1 hsnd
    rw [List.mem_map] at hclusters
    obtain ⟨l, hlkeys, hpeq⟩ := hclusters
    have hl : l ∈ labels := List.mem_dedup.1 (mem_sortAsc.1 hlkeys)
    obtain ⟨pr, hpr, hprl⟩ := exists_pair_of_mem_labels labels tl l hlen hl
    have hmem1 : pr.1 ∈ membersForLabel tl labels l :=
      List.mem_map_of_mem _ (List.mem_filter.2 ⟨hpr, by simp [hprl]⟩)
    obtain ⟨m0, mr, hmembers⟩ : ∃ m0 mr,
        membersForLabel tl labels l = m0 :: mr := by
      cases hm : membersForLabel tl labels l with
      | nil => rw [hm] at hmem1; simp at hmem1
      | cons m0 mr => exact ⟨m0, mr, rfl⟩
    obtain ⟨m, hmax, hmmem, hmle⟩ := pyMax_spec m0 mr
    have htempl : ({ p.2 with cluster_id := p.1 } : ErrorCluster).templates =
        membersForLabel tl labels l := by
      show p.2.templates = membersForLabel tl labels l
      rw [← hpeq]
      rfl
    have hrep : ({ p.2 with cluster_id := p.1 } : ErrorCluster).representative_sample =
        ((pyMaxByCount (membersForLabel tl labels l)).map
          (fun t => t.template)).getD [] := by
      show p.2.representative_sample = _
      rw [← hpeq]
      rfl
    refine ⟨m, ?_, ?_, ?_⟩
    · rw [htempl, hmembers]
      exact hmmem
    · rw [hrep, hmembers, hmax]
      rfl
    · intro x hx
      rw [htempl, hmembers] at hx
      exact hmle x hx
  · intro t0 ts
    rfl

/-- Witness for the amended C6 at concrete inputs: two templates with
labels `[0, 1]` on the k-means path, and a two-template fallback. -/
theorem cluster_representatives_witness :
    ClaimRepresentativeIsMax
      (build_clusters [⟨"a".data, [], 3, 1⟩, ⟨"b".data, [], 9, 2⟩] [0, 1]
        (fun _ => [])) ∧
    (∀ t0 ts, (create_single_cluster (t0 :: ts)).map
      (fun c => c.representative_sample) = [t0.template]) :=
  cluster_representatives [⟨"a".data, [], 3, 1⟩, ⟨"b".data, [], 9, 2⟩] [0, 1]
    (fun _ => []) (by decide)

/-- C7: degenerate clustering inputs are handled without failure — an
empty template map yields no clusters; a non-empty map with fewer
templates than the configured minimum, or whose vectorization fails
(empty vocabulary), yields the single-cluster fallback, which is one
cluster containing every template whose keywords are produced by
`_extract_keywords_simple` (frequency counting of non-stopword tokens
longer than 2 characters). -/
theorem cluster_templates_degenerate (cfg : ClustererConfig) (vec : Option VecOut)
    (templates : List (PyStr × ErrorTemplate)) :
    (cluster_templates cfg vec [] = []) ∧
    (templates ≠ [] →
      templates.length < cfg.min_samples_per_cluster →
      cluster_templates cfg vec templates =
        create_single_cluster (templates.map (fun p => p.2))) ∧
    (templates ≠ [] → vec = none →
      cluster_templates cfg vec templates =
        create_single_cluster (templates.map (fun p => p.2))) ∧
    (∀ t0 ts, create_single_cluster (t0 :: ts) =
      [{ cluster_id := 0
         templates := t0 :: ts
         total_count := ((t0 :: ts).map (fun t => t.count)).sum
         keywords := extract_keywords_simple (t0 :: ts)
         representative_sample := t0.template }]) := by
  refine ⟨rfl, ?_, ?_, fun t0 ts => rfl⟩
  · intro hne hlt
    obtain ⟨q, qs, rfl⟩ : ∃ q qs, templates = q :: qs := by
      cases templates with
      | nil => exact absurd rfl hne
      | cons q qs => exact ⟨q, qs, rfl⟩
    unfold cluster_templates
    simp only [List.isEmpty_cons, Bool.false_eq_true, if_false]
    rw [if_pos (by simpa using hlt)]
  · intro hne hvec
    subst hvec
    obtain ⟨q, qs, rfl⟩ : ∃ q qs, templates = q :: qs := by
      cases templates with
      | nil => exact absurd rfl hne
      | cons q qs => exact ⟨q, qs, rfl⟩
    unfold cluster_templates
    simp only [List.isEmpty_cons, Bool.false_eq_true, if_false]
    split
    · rfl
    · rfl

/-- Witness for C7: a one-template map takes the too-few fallback, and a
two-template map with failed vectorization takes the empty-vocabulary
fallback. -/
theorem cluster_templates_degenerate_witness :
    cluster_templates {} none [("e f".data, ⟨"e f".data, [], 1, 1⟩)] =
      create_single_cluster [⟨"e f".data, [], 1, 1⟩] ∧
    cluster_templates {} none
        [("g h".data, ⟨"g h".data, [], 2, 1⟩), ("i j".data, ⟨"i j".data, [], 3, 2⟩)] =
      create_single_cluster [⟨"g h".data, [], 2, 1⟩, ⟨"i j".data, [], 3, 2⟩] :=
  ⟨(cluster_templates_degenerate {} none
      [("e f".data, ⟨"e f".data, [], 1, 1⟩)]).2.1 (by decide) (by decide),
   (cluster_templates_degenerate {} none
      [("g h".data, ⟨"g h".data, [], 2, 1⟩),
       ("i j".data, ⟨"i j".data, [], 3, 2⟩)]).2.2.1 (by decide) rfl⟩

/-!
## `aggregation.py` — the sanitized LLM digest (C9)
-/

/-- Python `str(int)` for the f-string number fields. -/
def natStr (n : Nat) : PyStr := (Nat.repr n).data

/-- Python `sep.join(list)`. -/
def pyJoin (sep : PyStr) : List PyStr → PyStr
  | [] => []
  | [x] => x
  | x :: xs => x ++ sep ++ pyJoin sep xs

/-- The five lines appended per cluster by
`prepare_cluster_summary_for_llm`, plus the trailing blank line. -/
def clusterSummaryBlock (c : ErrorCluster) : List PyStr :=
  [ "Cluster ".data ++ natStr (c.cluster_id + 1) ++ ":".data
  , "  - Occurrences: ".data ++ natStr c.total_count
  , "  - Unique patterns: ".data ++ natStr c.templates.length
  , "  - Keywords: ".data ++ pyJoin ", ".data (c.keywords.take 5)
  , "  - Representative pattern: ".data ++ c.representative_sample.take 200
  , [] ]

/-- `aggregation.prepare_cluster_summary_for_llm`. -/
def prepare_cluster_summary_for_llm (clusters : List ErrorCluster) : PyStr :=
  if clusters.isEmpty then "No error clusters detected.".data
  else
    pyJoin "\n".data
      (["Error Cluster Summary:".data, []] ++
        (clusters.map clusterSummaryBlock).flatten)

/-- Pointwise agreement on exactly the fields claim C9 lists: id, total
count, number of member templates, keywords, representative template.
The stored original example messages are left completely unconstrained. -/
def SummaryAgrees (c1 c2 : ErrorCluster) : Prop :=
  c1.cluster_id = c2.cluster_id ∧ c1.total_count = c2.total_count ∧
  c1.templates.length = c2.templates.length ∧ c1.keywords = c2.keywords ∧
  c1.representative_sample = c2.representative_sample

theorem clusterSummaryBlock_congr {c1 c2 : ErrorCluster}
    (h : SummaryAgrees c1 c2) :
    clusterSummaryBlock c1 = clusterSummaryBlock c2 := by
  obtain ⟨h1, h2, h3, h4, h5⟩ := h
  simp [clusterSummaryBlock, h1, h2, h3, h4, h5]

/-- C9: the digest prepared for the summarization collaborator carries no
raw log content — any two cluster lists that agree on every cluster's id,
total count, member-template count, keywords and representative template
(but differ arbitrarily in the stored original example messages) produce
identical digest strings. -/
theorem prepare_cluster_summary_sanitized (cs1 cs2 : List ErrorCluster)
    (h : List.Forall₂ SummaryAgrees cs1 cs2) :
    prepare_cluster_summary_for_llm cs1 = prepare_cluster_summary_for_llm cs2 := by
  have hmap : cs1.map clusterSummaryBlock = cs2.map clusterSummaryBlock := by
    induction h with
    | nil => rfl
    | cons hab hrest ih =>
      simp only [List.map_cons, clusterSummaryBlock_congr hab, ih]
  cases h with
  | nil => rfl
  | cons hab hrest =>
    simp only [prepare_cluster_summary_for_llm, List.isEmpty_cons,
      Bool.false_eq_true, if_false]
    rw [hmap]

/-- Witness for C9: two one-cluster lists whose stored raw example
messages differ completely yield the same digest. -/
theorem prepare_cluster_summary_sanitized_witness :
    prepare_cluster_summary_for_llm
      [⟨0, [⟨"conn <IP> fail".data, ["conn 10.0.0.1 fail secret-token".data], 3, 1⟩],
        3, ["conn".data, "fail".data], "conn <IP> fail".data⟩] =
    prepare_cluster_summary_for_llm
      [⟨0, [⟨"conn <IP> fail".data, ["entirely different raw line".data], 3, 1⟩],
        3, ["conn".data, "fail".data], "conn <IP> fail".data⟩] :=
  prepare_cluster_summary_sanitized _ _
    (List.forall₂_cons.2 ⟨⟨rfl, rfl, rfl, rfl, rfl⟩, List.Forall₂.nil⟩)

/-!
## `ingestion.py` — chunked plain-file reading (C8)

`_read_plain_file` reads 64 KiB chunks, decodes each chunk separately
(`chunk.decode('utf-8')`, falling back to `errors='replace'` on a
`UnicodeDecodeError`; on valid input the two produce the same string, so
the net per-chunk effect is decode-with-replacement), splits on newline
and buffers the trailing partial line.  `decodeReplace` is CPython's
UTF-8 decoder with `errors='replace'`: one U+FFFD per maximal subpart of
an ill-formed subsequence (validated against CPython on truncated leads,
stray continuations, surrogates and out-of-range leads).
-/

def CHUNK_SIZE : Nat := 64 * 1024

def replChar : Char := Char.ofNat 0xFFFD

def isContB (b : Nat) : Bool := 0x80 ≤ b && b ≤ 0xBF

/-- Fuelled for structural recursion (each step consumes 1–4 bytes, so
fuel `bytes.length` is always sufficient). -/
def decodeReplaceFuel : Nat → List Nat → List Char
  | 0, _ => []
  | fuel + 1, bytes =>
    match bytes with
    | [] => []
    | b :: rest =>
      if b < 0x80 then Char.ofNat b :: decodeReplaceFuel fuel rest
      else if 0xC2 ≤ b ∧ b ≤ 0xDF then
        match rest with
        | b1 :: r1 =>
          if isContB b1 then
            Char.ofNat ((b - 0xC0) * 64 + (b1 - 0x80)) :: decodeReplaceFuel fuel r1
          else replChar :: decodeReplaceFuel fuel rest
        | [] => [replChar]
      else if 0xE0 ≤ b ∧ b ≤ 0xEF then
        match rest with
        | b1 :: r1 =>
          if (if b = 0xE0 then 0xA0 else 0x80) ≤ b1 ∧
              b1 ≤ (if b = 0xED then 0x9F else 0xBF) then
            match r1 with
            | b2 :: r2 =>
              if isContB b2 then
                Char.ofNat ((b - 0xE0) * 4096 + (b1 - 0x80) * 64 + (b2 - 0x80)) ::
                  decodeReplaceFuel fuel r2
              else replChar :: decodeReplaceFuel fuel r1
            | [] => [replChar]
          else replChar :: decodeReplaceFuel fuel rest
        | [] => [replChar]
      else if 0xF0 ≤ b ∧ b ≤ 0xF4 then
        match rest with
        | b1 :: r1 =>
          if (if b = 0xF0 then 0x90 else 0x80) ≤ b1 ∧
              b1 ≤ (if b = 0xF4 then 0x8F else 0xBF) then
            match r1 with
            | b2 :: r2 =>
              if isContB b2 then
                match r2 with
                | b3 :: r3 =>
                  if isContB b3 then
                    Char.ofNat ((b - 0xF0) * 262144 + (b1 - 0x80) * 4096 +
                      (b2 - 0x80) * 64 + (b3 - 0x80)) :: decodeReplaceFuel fuel r3
                  else replChar :: decodeReplaceFuel fuel r2
                | [] => [replChar]
              else replChar :: decodeReplaceFuel fuel r1
            | [] => [replChar]
          else replChar :: decodeReplaceFuel fuel rest
        | [] => [replChar]
      else replChar :: decodeReplaceFuel fuel rest

def decodeReplace (bytes : List Nat) : List Char :=
  decodeReplaceFuel bytes.length bytes

/-- Python `str.split('\n')`: `""` gives `[""]`, separators at the ends
give empty parts. -/
def splitOnNl : PyStr → List PyStr
  | [] => [[]]
  | c :: rest =>
    if c = '\n' then [] :: splitOnNl rest
    else
      match splitOnNl rest with
      | r :: rs => (c :: r) :: rs
      | [] => [[c]]

/-- The chunk loop of `_read_plain_file` (fuelled for structural
recursion: every iteration either stops or consumes a non-empty chunk,
so fuel `bytes.length + 1` is always sufficient). -/
def read_plain_aux : Nat → List Nat → PyStr → List PyStr
  | 0, _, _ => []
  | fuel + 1, bytes, buffer =>
    let chunk := bytes.take CHUNK_SIZE
    if chunk.isEmpty then
      if buffer.isEmpty then [] else [buffer]
    else
      let parts := splitOnNl (buffer ++ decodeReplace chunk)
      parts.dropLast ++
        read_plain_aux fuel (bytes.drop CHUNK_SIZE) (parts.getLastD [])

/-- `ingestion._read_plain_file` over an in-memory byte stream
(`file.read(CHUNK_SIZE)` on a byte buffer returns successive 64 KiB
slices until exhaustion). -/
def read_plain_file (bytes : List Nat) : List PyStr :=
  read_plain_aux (bytes.length + 1) bytes []

/-- Modelled from the spec (the behaviour claim C8 asserts): the lines of
the UTF-8 decoding *of the whole stream* split on newline, with the
trailing element yielded exactly when non-empty. -/
def specPlainLines (bytes : List Nat) : List PyStr :=
  (splitOnNl (decodeReplace bytes)).dropLast ++
    (if ((splitOnNl (decodeReplace bytes)).getLastD []).isEmpty then []
     else [(splitOnNl (decodeReplace bytes)).getLastD []])

/-- A 65538-byte stream: 65535 `'a'`s, then the two-byte UTF-8 encoding
of `'é'` (`C3 A9`) straddling the 64 KiB chunk boundary, then `'\n'`. -/
def c8Bytes : List Nat := List.replicate 65535 97 ++ [0xC3, 0xA9, 0x0A]

theorem decodeReplaceFuel_replicate_a (n : Nat) (f : Nat) (rest : List Nat) :
    decodeReplaceFuel (n + f) (List.replicate n 97 ++ rest) =
      List.replicate n 'a' ++ decodeReplaceFuel f rest := by
  induction n with
  | zero => simp
  | succ k ih =>
    have hstep :
        decodeReplaceFuel (k + f + 1) (97 :: (List.replicate k 97 ++ rest)) =
          'a' :: decodeReplaceFuel (k + f) (List.replicate k 97 ++ rest) := rfl
    calc decodeReplaceFuel (k + 1 + f) (List.replicate (k + 1) 97 ++ rest)
        = decodeReplaceFuel (k + f + 1) (97 :: (List.replicate k 97 ++ rest)) := by
          rw [List.replicate_succ, List.cons_append]
          congr 1
          omega
      _ = 'a' :: decodeReplaceFuel (k + f) (List.replicate k 97 ++ rest) := hstep
      _ = 'a' :: (List.replicate k 'a' ++ decodeReplaceFuel f rest) := by rw [ih]
      _ = List.replicate (k + 1) 'a' ++ decodeReplaceFuel f rest := by
          rw [List.replicate_succ, List.cons_append]

theorem decodeReplace_c8Chunk1 :
    decodeReplace (List.replicate 65535 97 ++ [0xC3]) =
      List.replicate 65535 'a' ++ [replChar] := by
  unfold decodeReplace
  have hlen : (List.replicate 65535 97 ++ [0xC3]).length = 65535 + 1 := by
    rw [List.length_append, List.length_replicate]
    rfl
  have htail : decodeReplaceFuel 1 [0xC3] = [replChar] := by decide
  rw [hlen, decodeReplaceFuel_replicate_a 65535 1 [0xC3], htail]

theorem decodeReplace_c8Whole :
    decodeReplace c8Bytes = List.replicate 65535 'a' ++ [Char.ofNat 0xE9, '\n'] := by
  unfold decodeReplace c8Bytes
  have hlen : (List.replicate 65535 97 ++ [0xC3, 0xA9, 0x0A]).length = 65535 + 3 := by
    rw [List.length_append, List.length_replicate]
    rfl
  have htail : decodeReplaceFuel 3 [0xC3, 0xA9, 0x0A] = [Char.ofNat 0xE9, '\n'] := by
    decide
  rw [hlen, decodeReplaceFuel_replicate_a 65535 3 [0xC3, 0xA9, 0x0A], htail]

theorem splitOnNl_ne_nil (s : PyStr) : splitOnNl s ≠ [] := by
  cases s with
  | nil => simp [splitOnNl]
  | cons c r =>
    simp only [splitOnNl]
    split
    · simp
    · cases h : splitOnNl r with
      | nil => simp
      | cons a as => simp

theorem splitOnNl_no_nl (s : PyStr) (h : ∀ c ∈ s, c ≠ '\n') :
    splitOnNl s = [s] := by
  induction s with
  | nil => rfl
  | cons c r ih =>
    have hc : ¬ c = '\n' := h c (List.mem_cons_self c r)
    have hr := ih (fun x hx => h x (List.mem_cons_of_mem c hx))
    simp only [splitOnNl, if_neg hc, hr]

/-- Splitting `l ++ m` where `l` is newline-free: the first part of the
split of `m` gets `l` prepended. -/
theorem splitOnNl_append (l m : PyStr) (h : ∀ c ∈ l, c ≠ '\n') :
    splitOnNl (l ++ m) =
      (l ++ (splitOnNl m).headD []) :: (splitOnNl m).tail := by
  induction l with
  | nil =>
    cases hm : splitOnNl m with
    | nil => exact absurd hm (splitOnNl_ne_nil m)
    | cons a as => simp [hm]
  | cons c r ih =>
    have hc : ¬ c = '\n' := h c (List.mem_cons_self c r)
    have hr := ih (fun x hx => h x (List.mem_cons_of_mem c hx))
    have happ : r.append m = r ++ m := rfl
    simp only [List.cons_append, splitOnNl, if_neg hc, happ, hr]

theorem c8_no_nl_chunk1 :
    ∀ c ∈ List.replicate 65535 'a' ++ [replChar], c ≠ '\n' := by
  intro c hc
  rw [List.mem_append] at hc
  rcases hc with hc | hc
  · rw [List.eq_of_mem_replicate hc]; decide
  · rw [List.mem_singleton] at hc; rw [hc]; decide

theorem read_plain_aux_step (fuel : Nat) (bytes : List Nat) (buffer : PyStr)
    (h : (bytes.take CHUNK_SIZE).isEmpty = false) :
    read_plain_aux (fuel + 1) bytes buffer =
      (splitOnNl (buffer ++ decodeReplace (bytes.take CHUNK_SIZE))).dropLast ++
        read_plain_aux fuel (bytes.drop CHUNK_SIZE)
          ((splitOnNl (buffer ++ decodeReplace (bytes.take CHUNK_SIZE))).getLastD []) := by
  simp only [read_plain_aux, h, Bool.false_eq_true, if_false]

theorem c8_take_chunk :
    c8Bytes.take CHUNK_SIZE = List.replicate 65535 97 ++ [0xC3] := by
  unfold c8Bytes CHUNK_SIZE
  rw [List.take_append_eq_append_take]
  rw [List.take_of_length_le (by rw [List.length_replicate]; decide)]
  rw [List.length_replicate]
  rw [show (64 * 1024 - 65535 : Nat) = 1 from rfl]
  rw [show List.take 1 [0xC3, 0xA9, 0x0A] = [0xC3] from rfl]

theorem c8_drop_chunk : c8Bytes.drop CHUNK_SIZE = [0xA9, 0x0A] := by
  unfold c8Bytes CHUNK_SIZE
  rw [List.drop_append_eq_append_drop]
  rw [List.drop_eq_nil_of_le (by rw [List.length_replicate]; decide)]
  rw [List.length_replicate, List.nil_append]
  rw [show (64 * 1024 - 65535 : Nat) = 1 from rfl]
  rw [show List.drop 1 [0xC3, 0xA9, 0x0A] = [0xA9, 0x0A] from rfl]

/-- The code's actual output on `c8Bytes`: one line whose last two
characters are two replacement characters — the valid `é` was split
across the chunk boundary and each half replaced separately. -/
theorem read_plain_file_c8 :
    read_plain_file c8Bytes =
      [(List.replicate 65535 'a' ++ [replChar]) ++ [replChar]] := by
  have hlen : c8Bytes.length = 65538 := by
    unfold c8Bytes
    rw [List.length_append, List.length_replicate]
    rfl
  have hchunkne : (c8Bytes.take CHUNK_SIZE).isEmpty = false := by
    rw [c8_take_chunk, List.isEmpty_eq_false]
    intro h
    exact absurd (List.append_eq_nil.1 h).2 (by decide)
  unfold read_plain_file
  rw [hlen]
  rw [read_plain_aux_step 65538 c8Bytes [] hchunkne]
  rw [c8_take_chunk, c8_drop_chunk, decodeReplace_c8Chunk1, List.nil_append]
  rw [splitOnNl_no_nl _ c8_no_nl_chunk1]
  rw [show ∀ x : PyStr, ([x] : List PyStr).dropLast = [] from fun _ => rfl]
  rw [show ∀ x : PyStr, ([x] : List PyStr).getLastD [] = x from fun _ => rfl]
  rw [List.nil_append]
  rw [show (65538 : Nat) = 65537 + 1 from rfl]
  rw [read_plain_aux_step 65537 [0xA9, 0x0A] _ (by decide)]
  rw [show ([0xA9, 0x0A].take CHUNK_SIZE) = [0xA9, 0x0A] from by decide]
  rw [show decodeReplace [0xA9, 0x0A] = [replChar, '\n'] from by decide]
  rw [show ([0xA9, 0x0A].drop CHUNK_SIZE) = ([] : List Nat) from by decide]
  rw [splitOnNl_append _ [replChar, '\n'] c8_no_nl_chunk1]
  rw [show splitOnNl [replChar, '\n'] = [[replChar], []] from by decide]
  rw [show (([[replChar], []] : List PyStr).headD []) = [replChar] from rfl]
  rw [show (([[replChar], []] : List PyStr).tail) = [[]] from rfl]
  rw [show ∀ x : PyStr, ((x :: [[]]) : List PyStr).dropLast = [x] from fun _ => rfl]
  rw [show ∀ x : PyStr, ((x :: [[]]) : List PyStr).getLastD [] = [] from fun _ => rfl]
  rw [show (65537 : Nat) = 65536 + 1 from rfl]
  rw [show read_plain_aux (65536 + 1) [] [] = [] from rfl]
  rw [List.append_nil]

/-- The behaviour the claim asserts on `c8Bytes`: one line ending in a
single correctly decoded `é`. -/
theorem specPlainLines_c8 :
    specPlainLines c8Bytes =
      [List.replicate 65535 'a' ++ [Char.ofNat 0xE9]] := by
  have hnonl : ∀ c ∈ List.replicate 65535 'a', c ≠ '\n' := by
    intro c hc
    rw [List.eq_of_mem_replicate hc]
    decide
  unfold specPlainLines
  rw [decodeReplace_c8Whole]
  rw [splitOnNl_append _ [Char.ofNat 0xE9, '\n'] hnonl]
  rw [show splitOnNl [Char.ofNat 0xE9, '\n'] = [[Char.ofNat 0xE9], []] from by decide]
  rw [show (([[Char.ofNat 0xE9], []] : List PyStr).headD []) = [Char.ofNat 0xE9] from rfl]
  rw [show (([[Char.ofNat 0xE9], []] : List PyStr).tail) = [[]] from rfl]
  rw [show ∀ x : PyStr, ((x :: [[]]) : List PyStr).dropLast = [x] from fun _ => rfl]
  rw [show ∀ x : PyStr, ((x :: [[]]) : List PyStr).getLastD [] = [] from fun _ => rfl]
  rw [show (if ([] : PyStr).isEmpty then ([] : List PyStr) else [[]]) = [] from rfl]
  rw [List.append_nil]

/-- C8 (code bug): on a stream whose valid two-byte UTF-8 character
straddles the 64 KiB chunk boundary, per-chunk decoding substitutes two
replacement characters for a *valid* byte sequence, so the produced
lines differ from the lines of the whole-stream UTF-8 decoding that the
specification promises (the gzip path, which uses an incremental
decoder, does not have this defect). -/
theorem read_plain_file_chunk_boundary_divergence :
    read_plain_file c8Bytes ≠ specPlainLines c8Bytes ∧
    read_plain_file c8Bytes =
      [(List.replicate 65535 'a' ++ [replChar]) ++ [replChar]] ∧
    specPlainLines c8Bytes =
      [List.replicate 65535 'a' ++ [Char.ofNat 0xE9]] := by
  refine ⟨?_, read_plain_file_c8, specPlainLines_c8⟩
  rw [read_plain_file_c8, specPlainLines_c8]
  intro h
  rw [List.singleton_inj] at h
  have hlen := congrArg List.length h
  rw [List.length_append, List.length_append, List.length_append,
    List.length_replicate] at hlen
  rw [show ([replChar] : PyStr).length = 1 from rfl] at hlen
  rw [show ([Char.ofNat 0xE9] : PyStr).length = 1 from rfl] at hlen
  omega

/-!
## `analyzer.py` / `aggregation.py` — the end-to-end result (C10)
-/

/-- Digit groups of three from the least-significant end, for Python's
`,` format spec. -/
def group3 : List Char → List (List Char)
  | [] => []
  | [a] => [[a]]
  | [a, b] => [[a, b]]
  | a :: b :: c :: rest => [a, b, c] :: group3 rest

/-- Python `f-string` thousands-separator formatting of a `Nat`
(the format spec `,`). -/
def pyComma (n : Nat) : PyStr :=
  pyJoin ",".data (((group3 (natStr n).reverse).map List.reverse).reverse)

/-- One element of the JSON list built by
`aggregation.format_templates_for_output`. -/
structure TemplateOut where
  pattern : PyStr
  count : Nat
  first_seen_line : Nat
  examples : List PyStr
deriving DecidableEq, Repr

/-- `aggregation.format_templates_for_output` (`top_n` is always the
default 10 at the only call site). -/
def format_templates_for_output (templates : List ErrorTemplate)
    (top_n : Nat) : List TemplateOut :=
  (templates.take top_n).map fun t =>
    ⟨t.template, t.count, t.first_occurrence_line, t.original_messages.take 3⟩

/-- One element of the JSON list built by
`clustering.format_clusters_for_output`. -/
structure ClusterOut where
  cluster_id : Nat
  total_occurrences : Nat
  unique_patterns : Nat
  keywords : List PyStr
  representative_pattern : PyStr
  sample_messages : List PyStr
deriving DecidableEq, Repr

/-- One step of the sample-collection loop of
`format_clusters_for_output`: `acc.1` is `samples`, `acc.2` the
`seen_messages` set (list membership models set membership). -/
def addSample (acc : List PyStr × List PyStr) (msg : PyStr) :
    List PyStr × List PyStr :=
  if !acc.2.contains msg && acc.1.length < 3 then
    (acc.1 ++ [msg], acc.2 ++ [msg])
  else acc

/-- The per-cluster sample collection of `format_clusters_for_output`:
up to 3 distinct original messages across the cluster's templates. -/
def clusterSamples (c : ErrorCluster) : List PyStr :=
  (c.templates.foldl (fun acc t => t.original_messages.foldl addSample acc)
    ([], [])).1

/-- `clustering.format_clusters_for_output`. -/
def format_clusters_for_output (clusters : List ErrorCluster) : List ClusterOut :=
  clusters.map fun c =>
    ⟨c.cluster_id, c.total_count, c.templates.length, c.keywords,
     c.representative_sample, clusterSamples c⟩

/-- `models.AnalysisResult`.  The wall-clock `processing_time_ms : float`
field is omitted: it is nondeterministic timing bookkeeping constrained
by no claim. -/
structure AnalysisResult where
  total_lines : Nat := 0
  error_lines : Nat := 0
  fatal_lines : Nat := 0
  warning_lines : Nat := 0
  exception_count : Nat := 0
  top_templates : List TemplateOut := []
  clusters : List ClusterOut := []
  llm_summary : Option PyStr := none
deriving Repr

/-- `aggregation.build_analysis_result`: count the high-signal entries by
level (`level_counts`), count exceptions, sort the template dict's values
by count descending (Python `sorted(..., reverse=True)`, stable) and
format the two output lists. -/
def build_analysis_result (total_lines : Nat)
    (error_entries : List ParsedLogEntry)
    (templates : List (PyStr × ErrorTemplate)) (clusters : List ErrorCluster)
    (llm_summary : Option PyStr) : AnalysisResult :=
  let levelCount := fun (l : LogLevel) =>
    (error_entries.filter (fun e => e.level == l)).length
  let exception_count := (error_entries.filter (fun e => e.has_exception)).length
  let sorted_templates :=
    sortByCountDesc (fun t => t.count) (templates.map (fun p => p.2))
  { total_lines := total_lines
  , error_lines := levelCount .ERROR
  , fatal_lines := levelCount .FATAL
  , warning_lines := levelCount .WARN
  , exception_count := exception_count
  , top_templates := format_templates_for_output sorted_templates 10
  , clusters := format_clusters_for_output clusters
  , llm_summary := llm_summary }

/-- The ASCII apostrophe used by `generate_basic_summary`'s last
sentence. -/
def squote : Char := Char.ofNat 39

/-- `llm_summary.generate_basic_summary` (the rule-based fallback; the
unused local `total_clustered` of the source is dropped).  In the
nonempty branch `top_cluster = clusters[0]` and the dataclass instance is
always truthy. -/
def generate_basic_summary (clusters : List ErrorCluster)
    (total_lines error_count fatal_count : Nat) : PyStr :=
  match clusters with
  | [] =>
    if error_count = 0 then
      "Processed ".data ++ pyComma total_lines ++
        " lines. No significant errors detected.".data
    else
      "Processed ".data ++ pyComma total_lines ++ " lines with ".data ++
        pyComma error_count ++ " errors, but no patterns could be clustered.".data
  | top :: _ =>
    let parts1 := ["Processed ".data ++ pyComma total_lines ++ " lines.".data]
    let parts2 := parts1 ++
      (if 0 < fatal_count then
        ["CRITICAL: ".data ++ pyComma fatal_count ++ " fatal errors detected.".data]
       else [])
    let parts3 := parts2 ++
      ["Found ".data ++ pyComma error_count ++ " error entries grouped into ".data ++
        natStr clusters.length ++ " clusters.".data]
    let keywords_str :=
      if top.keywords.isEmpty then "various errors".data
      else pyJoin ", ".data (top.keywords.take 3)
    let parts4 := parts3 ++
      ["Most frequent issue (".data ++ pyComma top.total_count ++
        " occurrences): related to ".data ++ keywords_str ++ ".".data]
    let parts5 := parts4 ++
      (if top.keywords.isEmpty then []
       else
        ["Suggested investigation: Search codebase for ".data ++
          [squote] ++ top.keywords.headD [] ++ [squote] ++ ".".data])
    pyJoin " ".data parts5

/-- `ingestion.read_log_file`: dispatch on the `.gz` filename suffix.
The gzip branch (gzip decompression plus incremental text decoding, all
external library code) is modelled by the oracle `gz`. -/
def read_log_file (gz : List Nat → List PyStr) (bytes : List Nat)
    (filename : PyStr) : List PyStr :=
  if ".gz".data.isSuffixOf filename then gz bytes else read_plain_file bytes

/-- `LogAnalyzer.analyze` (the orchestration).  External effects appear
as oracle parameters: `gz` the gzip ingestion branch, `jsonO` the
`json.loads` path of the parser, `vec` the sklearn
vectorize-and-cluster outcome, `llmO` the network LLM call (`none`
models both an unset `use_llm` path and a failed call); `cfg` and
`min_level` are the constructor configuration.  The wall-clock
`start_time`/`processing_time_ms` bookkeeping is dropped with the
omitted timing field. -/
def analyze (gz : List Nat → List PyStr)
    (jsonO : PyStr → Nat → Option ParsedLogEntry) (vec : Option VecOut)
    (cfg : ClustererConfig) (min_level : LogLevel) (use_llm : Bool)
    (llmO : List ErrorCluster → Nat → Nat → Option PyStr)
    (bytes : List Nat) (filename : PyStr) : AnalysisResult :=
  let lines := read_log_file gz bytes filename
  let all_entries := parse_lines jsonO lines
  let total_lines := all_entries.length
  let p := process_entries min_level all_entries
  let error_entries := p.1
  let templates := p.2
  let clusters := cluster_templates cfg vec templates
  let error_count := error_entries.length
  let fatal_count := (error_entries.filter (fun e => e.level == .FATAL)).length
  let llm1 :=
    if use_llm && !clusters.isEmpty then llmO clusters total_lines error_count
    else none
  let llm_summary :=
    if pyTruthyOpt llm1 then llm1
    else some (generate_basic_summary clusters total_lines error_count fatal_count)
  build_analysis_result total_lines error_entries templates clusters llm_summary

/-- The bytes of `"x\n\ny"`: three physical text lines (`"x"`, `""`,
`"y"`), the middle one blank. -/
def c10Bytes : List Nat := [120, 10, 10, 121]

/-- The plain-path filename of the C10 counterexample. -/
def c10Name : PyStr := "test.log".data

/-- Trivial gzip oracle (never consulted on a `.log` filename). -/
def gzNone : List Nat → List PyStr := fun _ => []

/-- Trivial `json.loads` oracle (never consulted: no line starts with a
brace). -/
def jsonNone : PyStr → Nat → Option ParsedLogEntry := fun _ _ => none

/-- Trivial LLM oracle (never consulted: `use_llm` is false). -/
def llmNone : List ErrorCluster → Nat → Nat → Option PyStr := fun _ _ _ => none

/-- C10 counterexample: ingesting `"x\n\ny"` produces 3 text lines, but
the reported `total_lines` is 2 — `analyze` sets
`total_lines = len(all_entries)` *after* parsing, and the parser drops
the blank line, so not every physical line is counted (a multiline
continuation would likewise be merged away). -/
theorem total_lines_counts_entries_not_ingested_lines :
    (read_log_file gzNone c10Bytes c10Name).length = 3 ∧
    (analyze gzNone jsonNone none {} .WARN false llmNone
      c10Bytes c10Name).total_lines = 2 := by
  constructor
  · decide
  · decide

/-- C10 (amended): the reported total is the number of *parsed logical
entries* of the ingested lines — for every input file and every outcome
of the external oracles, `total_lines` equals
`len(list(parse_lines(read_log_file(file, filename))))`; blank lines are
skipped and continuation lines are merged into their entries, so the
physical ingested-line count is not what is reported. -/
theorem analysis_total_lines_counts_parsed_entries
    (gz : List Nat → List PyStr)
    (jsonO : PyStr → Nat → Option ParsedLogEntry) (vec : Option VecOut)
    (cfg : ClustererConfig) (min_level : LogLevel) (use_llm : Bool)
    (llmO : List ErrorCluster → Nat → Nat → Option PyStr)
    (bytes : List Nat) (filename : PyStr) :
    (analyze gz jsonO vec cfg min_level use_llm llmO bytes filename).total_lines =
      (parse_lines jsonO (read_log_file gz bytes filename)).length := rfl

end LogAnalyzer
